import Mathlib

/-!
# Verification of the excelize chart / extended-properties data model

This development gives a shallow embedding of the chart and
document-metadata data model of the excelize spreadsheet library
(`xmlChart.go`, `xmlApp.go`) together with the encode/decode transform
layer between the public `Chart` configuration surface and the OOXML
schema tree, and proves the specified properties about it.

Conventions of the embedding:
* Go pointer fields (`*T`) become `Option T`; Go slices (`[]T`) become
  `List T`; Go slices of pointers (`[]*T`) become `List (Option T)`.
* Go `string` becomes `String`, Go `int` becomes `Int`.
* Go `float64` values are only ever carried opaquely by this layer
  (stored, compared for equality with zero, never computed with), so we
  represent them by an exact numeric carrier type `Float64 := Rat`;
  no floating-point rounding behaviour is relevant to any property here.
* `XMLName` marker fields carry no data and are omitted; namespace
  attribute fields (`XMLNSa`, `Vt`) are kept as plain strings.
-/

set_option maxHeartbeats 1000000

/-- Exact carrier for Go `float64` values stored in the model (the values
are only carried and compared, never computed with). -/
abbrev Float64 := Rat

/-! ## Schema types from `xmlApp.go` -/

/-- AppProperties directly maps the document application properties. -/
structure AppProperties where
  Application       : String := ""
  ScaleCrop         : Bool := false
  DocSecurity       : Int := 0
  Company           : String := ""
  LinksUpToDate     : Bool := false
  HyperlinksChanged : Bool := false
  AppVersion        : String := ""
deriving DecidableEq

/-- xlsxVectorVariant specifies the set of hyperlinks that were in this
document when last saved. -/
structure xlsxVectorVariant where
  Content : String := ""
deriving DecidableEq

structure xlsxVectorLpstr where
  Content : String := ""
deriving DecidableEq

/-- xlsxDigSig contains the signature of a digitally signed document. -/
structure xlsxDigSig where
  Content : String := ""
deriving DecidableEq

/-- xlsxProperties specifies to an OOXML document properties such as the
template used, the number of pages and words, and the application name and
version.  The boolean fields `ScaleCrop`, `LinksUpToDate`, `SharedDoc` and
`HyperlinksChanged` are plain (non-pointer) Go `bool`s tagged
`xml:",omitempty"`. -/
structure xlsxProperties where
  Vt                   : String := ""
  Template             : String := ""
  Manager              : String := ""
  Company              : String := ""
  Pages                : Int := 0
  Words                : Int := 0
  Characters           : Int := 0
  PresentationFormat   : String := ""
  Lines                : Int := 0
  Paragraphs           : Int := 0
  Slides               : Int := 0
  Notes                : Int := 0
  TotalTime            : Int := 0
  HiddenSlides         : Int := 0
  MMClips              : Int := 0
  ScaleCrop            : Bool := false
  HeadingPairs         : Option xlsxVectorVariant := none
  TitlesOfParts        : Option xlsxVectorLpstr := none
  LinksUpToDate        : Bool := false
  CharactersWithSpaces : Int := 0
  SharedDoc            : Bool := false
  HyperlinkBase        : String := ""
  HLinks               : Option xlsxVectorVariant := none
  HyperlinksChanged    : Bool := false
  DigSig               : Option xlsxDigSig := none
  Application          : String := ""
  AppVersion           : String := ""
  DocSecurity          : Int := 0
deriving DecidableEq

/-- Serialized presence of a non-pointer Go `bool` struct field tagged
`xml:",omitempty"` under `encoding/xml`: the element is omitted exactly
when the value is `false`, so the only reachable serialized states are
`none` (absent) and `some true`. -/
def omitemptyBool (b : Bool) : Option Bool :=
  if b then some true else none

/-- Serialized form of the `ScaleCrop` element of `xlsxProperties`. -/
def scaleCropSerialized (p : xlsxProperties) : Option Bool :=
  omitemptyBool p.ScaleCrop

/-- Serialized form of the `LinksUpToDate` element of `xlsxProperties`. -/
def linksUpToDateSerialized (p : xlsxProperties) : Option Bool :=
  omitemptyBool p.LinksUpToDate

/-- Serialized form of the `HyperlinksChanged` element of
`xlsxProperties`. -/
def hyperlinksChangedSerialized (p : xlsxProperties) : Option Bool :=
  omitemptyBool p.HyperlinksChanged

/-! ## Schema types from `xmlChart.go` (leaf value wrappers) -/

/-- attrValInt directly maps the val element with integer data type as an
attribute. -/
structure attrValInt where
  Val : Option Int := none
deriving DecidableEq

/-- attrValFloat directly maps the val element with float64 data type as
an attribute. -/
structure attrValFloat where
  Val : Option Float64 := none
deriving DecidableEq

/-- attrValBool directly maps the val element with boolean data type as an
attribute. -/
structure attrValBool where
  Val : Option Bool := none
deriving DecidableEq

/-- attrValString directly maps the val element with string data type as
an attribute. -/
structure attrValString where
  Val : Option String := none
deriving DecidableEq

/-! ## Schema types from `xmlChart.go` (drawing / text properties) -/

/-- aCs directly maps the a:cs element. -/
structure aCs where
  Typeface : String := ""
deriving DecidableEq

/-- aEa directly maps the a:ea element. -/
structure aEa where
  Typeface : String := ""
deriving DecidableEq

structure xlsxCTTextFont where
  Typeface    : String := ""
  Panose      : String := ""
  PitchFamily : String := ""
  Charset     : String := ""
deriving DecidableEq

/-- aSchemeClr (Scheme Color) directly maps the a:schemeClr element. -/
structure aSchemeClr where
  Val    : String := ""
  LumMod : Option attrValInt := none
  LumOff : Option attrValInt := none
deriving DecidableEq

/-- aSolidFill (Solid Fill) directly maps the solidFill element. -/
structure aSolidFill where
  SchemeClr : Option aSchemeClr := none
  SrgbClr   : Option attrValString := none
deriving DecidableEq

/-- aLn (Outline) directly maps the a:ln element. -/
structure aLn where
  Algn      : String := ""
  Cap       : String := ""
  Cmpd      : String := ""
  W         : Int := 0
  NoFill    : Option attrValString := none
  Round     : String := ""
  SolidFill : Option aSolidFill := none
deriving DecidableEq

/-- aContourClr (Contour Color) directly maps the a:contourClr element. -/
structure aContourClr where
  SchemeClr : Option aSchemeClr := none
deriving DecidableEq

/-- aSp3D (3-D Shape Properties) directly maps the a:sp3d element. -/
structure aSp3D where
  ContourW   : Int := 0
  ContourClr : Option aContourClr := none
deriving DecidableEq

/-- cSpPr (Shape Properties) directly maps the spPr element. -/
structure cSpPr where
  NoFill    : Option String := none
  SolidFill : Option aSolidFill := none
  Ln        : Option aLn := none
  Sp3D      : Option aSp3D := none
  EffectLst : Option String := none
deriving DecidableEq

/-- aBodyPr (Body Properties) directly maps the a:bodyPr element. -/
structure aBodyPr where
  Anchor           : String := ""
  AnchorCtr        : Bool := false
  Rot              : Int := 0
  BIns             : Float64 := 0
  CompatLnSpc      : Bool := false
  ForceAA          : Bool := false
  FromWordArt      : Bool := false
  HorzOverflow     : String := ""
  LIns             : Float64 := 0
  NumCol           : Int := 0
  RIns             : Float64 := 0
  RtlCol           : Bool := false
  SpcCol           : Int := 0
  SpcFirstLastPara : Bool := false
  TIns             : Float64 := 0
  Upright          : Bool := false
  Vert             : String := ""
  VertOverflow     : String := ""
  Wrap             : String := ""
deriving DecidableEq

/-- aRPr (Run Properties) directly maps the rPr element. -/
structure aRPr where
  AltLang    : String := ""
  B          : Bool := false
  Baseline   : Int := 0
  Bmk        : String := ""
  Cap        : String := ""
  Dirty      : Bool := false
  Err        : Bool := false
  I          : Bool := false
  Kern       : Int := 0
  Kumimoji   : Bool := false
  Lang       : String := ""
  NoProof    : Bool := false
  NormalizeH : Bool := false
  SmtClean   : Bool := false
  SmtID      : Nat := 0
  Spc        : Int := 0
  Strike     : String := ""
  Sz         : Float64 := 0
  U          : String := ""
  SolidFill  : Option aSolidFill := none
  Latin      : Option xlsxCTTextFont := none
  Ea         : Option aEa := none
  Cs         : Option aCs := none
deriving DecidableEq

/-- aPPr (Paragraph Properties) directly maps the a:pPr element. -/
structure aPPr where
  DefRPr : aRPr := {}
deriving DecidableEq

/-- aR directly maps the a:r element. -/
structure aR where
  RPr : aRPr := {}
  T   : String := ""
deriving DecidableEq

/-- aEndParaRPr (End Paragraph Run Properties) directly maps the
a:endParaRPr element. -/
structure aEndParaRPr where
  Lang    : String := ""
  AltLang : String := ""
  Sz      : Int := 0
deriving DecidableEq

/-- aP (Paragraph) directly maps the a:p element. -/
structure aP where
  PPr        : Option aPPr := none
  R          : Option aR := none
  EndParaRPr : Option aEndParaRPr := none
deriving DecidableEq

/-- cRich (Rich Text) directly maps the rich element. -/
structure cRich where
  BodyPr   : aBodyPr := {}
  LstStyle : String := ""
  P        : List aP := []
deriving DecidableEq

/-- cTxPr (Text Properties) directly maps the txPr element. -/
structure cTxPr where
  BodyPr   : aBodyPr := {}
  LstStyle : String := ""
  P        : aP := {}
deriving DecidableEq

/-! ## Schema types from `xmlChart.go` (chart content) -/

/-- cPt directly maps the pt element. This element specifies data for a
particular data point. -/
structure cPt where
  IDx : Int := 0
  V   : Option String := none
deriving DecidableEq

/-- cStrCache (String Cache) directly maps the strCache element. This
element specifies the last string data used for a chart. -/
structure cStrCache where
  Pt      : List (Option cPt) := []
  PtCount : Option attrValInt := none
deriving DecidableEq

/-- cStrRef (String Reference) directly maps the strRef element. -/
structure cStrRef where
  F        : String := ""
  StrCache : Option cStrCache := none
deriving DecidableEq

/-- cNumCache directly maps the numCache element. This element specifies
the last data shown on the chart for a series. -/
structure cNumCache where
  FormatCode : String := ""
  Pt         : List (Option cPt) := []
  PtCount    : Option attrValInt := none
deriving DecidableEq

/-- cNumRef directly maps the numRef element. -/
structure cNumRef where
  F        : String := ""
  NumCache : Option cNumCache := none
deriving DecidableEq

/-- cCat (Category Axis Data) directly maps the cat element. -/
structure cCat where
  StrRef : Option cStrRef := none
deriving DecidableEq

/-- cVal directly maps the val element. -/
structure cVal where
  NumRef : Option cNumRef := none
deriving DecidableEq

/-- cTx (Chart Text) directly maps the tx element. -/
structure cTx where
  StrRef : Option cStrRef := none
  Rich   : Option cRich := none
deriving DecidableEq

/-- cTitle (Title) directly maps the title element. -/
structure cTitle where
  Tx      : cTx := {}
  Layout  : String := ""
  Overlay : Option attrValBool := none
  SpPr    : cSpPr := {}
  TxPr    : cTxPr := {}
deriving DecidableEq

/-- cMarker (Marker) directly maps the marker element. -/
structure cMarker where
  Symbol : Option attrValString := none
  Size   : Option attrValInt := none
  SpPr   : Option cSpPr := none
deriving DecidableEq

/-- cDPt (Data Point) directly maps the dPt element. -/
structure cDPt where
  IDx      : Option attrValInt := none
  Bubble3D : Option attrValBool := none
  SpPr     : Option cSpPr := none
deriving DecidableEq

/-- cNumFmt (Numbering Format) directly maps the numFmt element. -/
structure cNumFmt where
  FormatCode   : String := ""
  SourceLinked : Bool := false
deriving DecidableEq

/-- cDLbls (Data Labels) directly maps the dLbls element. -/
structure cDLbls where
  NumFmt          : Option cNumFmt := none
  DLblPos         : Option attrValString := none
  ShowLegendKey   : Option attrValBool := none
  ShowVal         : Option attrValBool := none
  ShowCatName     : Option attrValBool := none
  ShowSerName     : Option attrValBool := none
  ShowPercent     : Option attrValBool := none
  ShowBubbleSize  : Option attrValBool := none
  ShowLeaderLines : Option attrValBool := none
deriving DecidableEq

/-- cSer directly maps the ser element. This element specifies a series on
a chart. -/
structure cSer where
  IDx              : Option attrValInt := none
  Order            : Option attrValInt := none
  Tx               : Option cTx := none
  SpPr             : Option cSpPr := none
  DPt              : List (Option cDPt) := []
  DLbls            : Option cDLbls := none
  Marker           : Option cMarker := none
  InvertIfNegative : Option attrValBool := none
  Cat              : Option cCat := none
  Val              : Option cVal := none
  XVal             : Option cCat := none
  YVal             : Option cVal := none
  Smooth           : Option attrValBool := none
  BubbleSize       : Option cVal := none
  Bubble3D         : Option attrValBool := none
deriving DecidableEq

/-- cChartLines directly maps the chart lines content model. -/
structure cChartLines where
  SpPr : Option cSpPr := none
deriving DecidableEq

/-- cScaling directly maps the scaling element. This element contains
additional axis settings. -/
structure cScaling where
  LogBase     : Option attrValFloat := none
  Orientation : Option attrValString := none
  Max         : Option attrValFloat := none
  Min         : Option attrValFloat := none
deriving DecidableEq

/-- cAxs directly maps the catAx and valAx element. -/
structure cAxs where
  AxID           : Option attrValInt := none
  Scaling        : Option cScaling := none
  Delete         : Option attrValBool := none
  AxPos          : Option attrValString := none
  MajorGridlines : Option cChartLines := none
  MinorGridlines : Option cChartLines := none
  Title          : Option cTitle := none
  NumFmt         : Option cNumFmt := none
  MajorTickMark  : Option attrValString := none
  MinorTickMark  : Option attrValString := none
  TickLblPos     : Option attrValString := none
  SpPr           : Option cSpPr := none
  TxPr           : Option cTxPr := none
  CrossAx        : Option attrValInt := none
  Crosses        : Option attrValString := none
  CrossBetween   : Option attrValString := none
  MajorUnit      : Option attrValFloat := none
  MinorUnit      : Option attrValFloat := none
  Auto           : Option attrValBool := none
  LblAlgn        : Option attrValString := none
  LblOffset      : Option attrValInt := none
  TickLblSkip    : Option attrValInt := none
  TickMarkSkip   : Option attrValInt := none
  NoMultiLvlLbl  : Option attrValBool := none
deriving DecidableEq

/-- cCharts specifies the common element of the chart. -/
structure cCharts where
  BarDir       : Option attrValString := none
  BubbleScale  : Option attrValFloat := none
  Grouping     : Option attrValString := none
  RadarStyle   : Option attrValString := none
  ScatterStyle : Option attrValString := none
  OfPieType    : Option attrValString := none
  VaryColors   : Option attrValBool := none
  Wireframe    : Option attrValBool := none
  Ser          : Option (List cSer) := none
  SplitPos     : Option attrValInt := none
  SerLines     : Option attrValString := none
  DLbls        : Option cDLbls := none
  Shape        : Option attrValString := none
  HoleSize     : Option attrValInt := none
  Smooth       : Option attrValBool := none
  Overlap      : Option attrValInt := none
  AxID         : List (Option attrValInt) := []
deriving DecidableEq

/-- cPlotArea directly maps the plotArea element. This element specifies
the plot area of the chart; it holds the fifteen mutually exclusive
chart-kind containers and the axis element sequences. -/
structure cPlotArea where
  Layout         : Option String := none
  AreaChart      : Option cCharts := none
  Area3DChart    : Option cCharts := none
  BarChart       : Option cCharts := none
  Bar3DChart     : Option cCharts := none
  BubbleChart    : Option cCharts := none
  DoughnutChart  : Option cCharts := none
  LineChart      : Option cCharts := none
  Line3DChart    : Option cCharts := none
  PieChart       : Option cCharts := none
  Pie3DChart     : Option cCharts := none
  OfPieChart     : Option cCharts := none
  RadarChart     : Option cCharts := none
  ScatterChart   : Option cCharts := none
  Surface3DChart : Option cCharts := none
  SurfaceChart   : Option cCharts := none
  CatAx          : List (Option cAxs) := []
  ValAx          : List (Option cAxs) := []
  SerAx          : List (Option cAxs) := []
  SpPr           : Option cSpPr := none
deriving DecidableEq

/-- cAutoTitleDeleted (Auto Title Is Deleted) directly maps the
autoTitleDeleted element. -/
structure cAutoTitleDeleted where
  Val : Bool := false
deriving DecidableEq

/-- Modelled from the spec: `xlsxExtLst` (declared elsewhere in the
repository) carries raw extension-list XML opaquely. -/
structure xlsxExtLst where
  Ext : String := ""
deriving DecidableEq

/-- cView3D (View In 3D) directly maps the view3D element. -/
structure cView3D where
  RotX         : Option attrValInt := none
  RotY         : Option attrValInt := none
  RAngAx       : Option attrValInt := none
  DepthPercent : Option attrValInt := none
  Perspective  : Option attrValInt := none
  ExtLst       : Option xlsxExtLst := none
deriving DecidableEq

/-- cThicknessSpPr directly maps the element that specifies the thickness
of the walls or floor. -/
structure cThicknessSpPr where
  Thickness : Option attrValInt := none
  SpPr      : Option cSpPr := none
deriving DecidableEq

/-- cLegend (Legend) directly maps the legend element. -/
structure cLegend where
  Layout    : Option String := none
  LegendPos : Option attrValString := none
  Overlay   : Option attrValBool := none
  SpPr      : Option cSpPr := none
  TxPr      : Option cTxPr := none
deriving DecidableEq

/-- cChart (Chart) directly maps the chart element. -/
structure cChart where
  Title            : Option cTitle := none
  AutoTitleDeleted : Option cAutoTitleDeleted := none
  View3D           : Option cView3D := none
  Floor            : Option cThicknessSpPr := none
  SideWall         : Option cThicknessSpPr := none
  BackWall         : Option cThicknessSpPr := none
  PlotArea         : Option cPlotArea := none
  Legend           : Option cLegend := none
  PlotVisOnly      : Option attrValBool := none
  DispBlanksAs     : Option attrValString := none
  ShowDLblsOverMax : Option attrValBool := none
deriving DecidableEq

/-- cPageMargins directly maps the pageMargins element. -/
structure cPageMargins where
  B      : Float64 := 0
  Footer : Float64 := 0
  Header : Float64 := 0
  L      : Float64 := 0
  R      : Float64 := 0
  T      : Float64 := 0
deriving DecidableEq

/-- cPrintSettings directly maps the printSettings element. -/
structure cPrintSettings where
  HeaderFooter : Option String := none
  PageMargins  : Option cPageMargins := none
  PageSetup    : Option String := none
deriving DecidableEq

/-- xlsxChartSpace directly maps the chartSpace element. -/
structure xlsxChartSpace where
  XMLNSa         : String := ""
  Date1904       : Option attrValBool := none
  Lang           : Option attrValString := none
  RoundedCorners : Option attrValBool := none
  Chart          : cChart := {}
  SpPr           : Option cSpPr := none
  TxPr           : Option cTxPr := none
  PrintSettings  : Option cPrintSettings := none
deriving DecidableEq

/-- Three-state serialized form of the optional `autoTitleDeleted` element
of a `cChart`: absent (`none`), present with `val="0"` (`some false`), or
present with `val="1"` (`some true`). -/
def autoTitleDeletedSerialized (ch : cChart) : Option Bool :=
  ch.AutoTitleDeleted.map (fun a => a.Val)

/-! ## Public chart model (from `xmlChart.go`)

The styling leaf types referenced by the public model (`Font`, `Fill`,
`GraphicOptions`, `RichTextRun`, `ChartLineType`,
`ChartDataLabelPositionType`, `ChartType`) are declared elsewhere in the
repository; they are modelled from the spec below. -/

/-- Modelled from the spec: `Font` (declared elsewhere in the repository)
carries font styling; font/style resolution is an external collaborator,
so the value is carried opaquely by this layer. -/
structure Font where
  Bold   : Bool := false
  Italic : Bool := false
  Size   : Float64 := 0
  Color  : String := ""
deriving DecidableEq

/-- Modelled from the spec: `Fill` (declared elsewhere in the repository)
carries fill styling, carried opaquely by this layer. -/
structure Fill where
  FillType : String := ""
  Color    : List String := []
  Shading  : Int := 0
deriving DecidableEq

/-- Modelled from the spec: `RichTextRun` (declared elsewhere in the
repository) is one run of rich text carrying title text. -/
structure RichTextRun where
  Text : String := ""
  Font : Option Font := none
deriving DecidableEq

/-- Modelled from the spec: `GraphicOptions` (declared elsewhere in the
repository) carries drawing-object placement options, which are a concern
of the drawing anchor rather than of the chart XML subtree; carried
opaquely by this layer. -/
structure GraphicOptions where
  AltText  : String := ""
  Locked   : Option Bool := none
  ScaleX   : Float64 := 0
  ScaleY   : Float64 := 0
deriving DecidableEq

/-- Modelled from the spec: `ChartLineType` (declared elsewhere in the
repository) is a tag enumerating chart line styles. -/
abbrev ChartLineType := Nat

/-- Modelled from the spec: `ChartDataLabelPositionType` (declared
elsewhere in the repository) is a tag enumerating data-label positions. -/
abbrev ChartDataLabelPositionType := Nat

/-- Modelled from the spec: `ChartType` (declared elsewhere in the
repository) is the chart-kind tag of the public model, a small integer
tag; the dispatch table below recognizes the tags corresponding to the
fifteen mutually exclusive plot-area containers. -/
abbrev ChartType := Nat

/-- ChartNumFmt directly maps the number format settings of the chart. -/
structure ChartNumFmt where
  CustomNumFmt : String := ""
  SourceLinked : Bool := false
deriving DecidableEq

/-- ChartAxis directly maps the format settings of the chart axis.  Note
that only `Maximum` and `Minimum` are pointer (`Option`) fields; every
other numeric setting is a bare value whose zero value doubles as
"unset". The lowercase `axID` field is unexported in Go (not visible to
callers). -/
structure ChartAxis where
  None           : Bool := false
  MajorGridLines : Bool := false
  MinorGridLines : Bool := false
  MajorUnit      : Float64 := 0
  TickLabelSkip  : Int := 0
  ReverseOrder   : Bool := false
  Secondary      : Bool := false
  Maximum        : Option Float64 := none
  Minimum        : Option Float64 := none
  Font           : Font := {}
  LogBase        : Float64 := 0
  NumFmt         : ChartNumFmt := {}
  Title          : List RichTextRun := []
  axID           : Int := 0
deriving DecidableEq

/-- ChartDimension directly maps the dimension of the chart. -/
structure ChartDimension where
  Width  : Nat := 0
  Height : Nat := 0
deriving DecidableEq

/-- ChartPlotArea directly maps the format settings of the plot area. -/
structure ChartPlotArea where
  SecondPlotValues : Int := 0
  ShowBubbleSize   : Bool := false
  ShowCatName      : Bool := false
  ShowLeaderLines  : Bool := false
  ShowPercent      : Bool := false
  ShowSerName      : Bool := false
  ShowVal          : Bool := false
  NumFmt           : ChartNumFmt := {}
deriving DecidableEq

/-- ChartLegend directly maps the format settings of the chart legend. -/
structure ChartLegend where
  Position      : String := ""
  ShowLegendKey : Bool := false
deriving DecidableEq

/-- ChartMarker directly maps the format settings of the chart marker. -/
structure ChartMarker where
  Symbol : String := ""
  Size   : Int := 0
deriving DecidableEq

/-- ChartLine directly maps the format settings of the chart line. -/
structure ChartLine where
  LineType : ChartLineType := 0
  Smooth   : Bool := false
  Width    : Float64 := 0
deriving DecidableEq

/-- ChartSeries directly maps the format settings of the chart series. -/
structure ChartSeries where
  Name              : String := ""
  Categories        : String := ""
  Values            : String := ""
  Sizes             : String := ""
  Fill              : Fill := {}
  Line              : ChartLine := {}
  Marker            : ChartMarker := {}
  DataLabelPosition : ChartDataLabelPositionType := 0
deriving DecidableEq

/-- Chart directly maps the format settings of the chart.  The lowercase
`order` field is unexported in Go. -/
structure Chart where
  chartType    : ChartType := 0
  Series       : List ChartSeries := []
  Format       : GraphicOptions := {}
  Dimension    : ChartDimension := {}
  Legend       : ChartLegend := {}
  Title        : List RichTextRun := []
  VaryColors   : Option Bool := none
  XAxis        : ChartAxis := {}
  YAxis        : ChartAxis := {}
  PlotArea     : ChartPlotArea := {}
  Border       : ChartLine := {}
  ShowBlanksAs : String := ""
  BubbleSize   : Int := 0
  HoleSize     : Int := 0
  order        : Int := 0
deriving DecidableEq

/-! ## Chart-kind dispatch table

Modelled from the spec: the dispatch table maps each of the fifteen
chart-kind tags to its plot-area container, applicable public fields and
axis topology; it is the single source of truth used by both encode and
decode. -/

/-- The fifteen mutually exclusive chart kinds, one per plot-area
container of `cPlotArea`. -/
inductive ChartKind where
  | area | area3D | bar | bar3D | bubble | doughnut | line | line3D
  | pie | pie3D | ofPie | radar | scatter | surface3D | surface
deriving DecidableEq

/-- Modelled from the spec: the dispatch-table lookup from the public
chart-kind tag to the recognized kind; tags outside the table are
unsupported. -/
def chartKindOf (t : ChartType) : Option ChartKind :=
  match t with
  | 0 => some .area
  | 1 => some .area3D
  | 2 => some .bar
  | 3 => some .bar3D
  | 4 => some .bubble
  | 5 => some .doughnut
  | 6 => some .line
  | 7 => some .line3D
  | 8 => some .pie
  | 9 => some .pie3D
  | 10 => some .ofPie
  | 11 => some .radar
  | 12 => some .scatter
  | 13 => some .surface3D
  | 14 => some .surface
  | _ => none

/-- The canonical public tag of each chart kind (inverse of
`chartKindOf` on recognized tags). -/
def chartTypeOf (k : ChartKind) : ChartType :=
  match k with
  | .area => 0
  | .area3D => 1
  | .bar => 2
  | .bar3D => 3
  | .bubble => 4
  | .doughnut => 5
  | .line => 6
  | .line3D => 7
  | .pie => 8
  | .pie3D => 9
  | .ofPie => 10
  | .radar => 11
  | .scatter => 12
  | .surface3D => 13
  | .surface => 14

/-- Modelled from the spec: the axis topology of each chart kind — no
axes for the pie family, three axes (category/value/series) for the 3D,
surface and bubble kinds, two (category/value) otherwise. -/
def axisTopology (k : ChartKind) : Nat :=
  match k with
  | .pie | .pie3D | .doughnut | .ofPie => 0
  | .area3D | .bar3D | .line3D | .surface3D | .surface | .bubble => 3
  | .area | .bar | .line | .radar | .scatter => 2

/-- Kinds whose series carry coordinate data (`xVal`/`yVal` instead of
`cat`/`val`). -/
def usesXYVal (k : ChartKind) : Bool :=
  match k with
  | .scatter | .bubble => true
  | _ => false

/-! ## Transform layer

Modelled from the spec: the transform layer (`encode`, `decode`) and its
error kinds live outside the two shown source files; the definitions
below follow sections 4.2-4.4 and 7 of the specification. -/

/-- Decidable equality of transform results, for evaluating the transform
layer at concrete inputs. -/
instance exceptDecEq {e a : Type} [DecidableEq e] [DecidableEq a] :
    DecidableEq (Except e a) := fun x y =>
  match x, y with
  | .error u, .error v => decidable_of_iff (u = v) (by simp)
  | .error _, .ok _ => isFalse (by simp)
  | .ok _, .error _ => isFalse (by simp)
  | .ok u, .ok v => decidable_of_iff (u = v) (by simp)

/-- Modelled from the spec: the error kinds an encode can fail with. -/
inductive EncodeError where
  | UnsupportedChartType
  | SeriesResolutionError
  | AxisLimitExceeded
deriving DecidableEq

/-- Modelled from the spec: the error kind a decode can fail with. -/
inductive DecodeError where
  | MalformedChartTree
deriving DecidableEq

/-- Modelled from the spec: the consumed interface of the worksheet data
collaborator, `resolveRange(formula) → ordered sequence of (index, value)
pairs`, `none` when the referenced range cannot be resolved. -/
abbrev RangeResolver := String → Option (List (Nat × String))

/-- Wrap an integer as a present `val` attribute. -/
def avI (i : Int) : attrValInt := { Val := some i }

/-- Wrap a float as a present `val` attribute. -/
def avF (v : Float64) : attrValFloat := { Val := some v }

/-- Wrap a boolean as a present `val` attribute. -/
def avB (b : Bool) : attrValBool := { Val := some b }

/-- Wrap a string as a present `val` attribute. -/
def avS (s : String) : attrValString := { Val := some s }

/-- Default-suppressed encoding of a boolean flag: emitted only when it
differs from the schema default `false`. -/
def flagOpt (b : Bool) : Option attrValBool :=
  if b then some (avB true) else none

/-- Integer value of an optional `val`-attribute element. -/
def attrIVal (o : Option attrValInt) : Option Int := o.bind (fun a => a.Val)

/-- Float value of an optional `val`-attribute element. -/
def attrFVal (o : Option attrValFloat) : Option Float64 := o.bind (fun a => a.Val)

/-- Boolean value of an optional `val`-attribute element. -/
def attrBVal (o : Option attrValBool) : Option Bool := o.bind (fun a => a.Val)

/-- String value of an optional `val`-attribute element. -/
def attrSVal (o : Option attrValString) : Option String := o.bind (fun a => a.Val)

/-- Integer value with the documented default `0` for absence. -/
def attrID (o : Option attrValInt) : Int := (attrIVal o).getD 0

/-- Float value with the documented default `0` for absence. -/
def attrFD (o : Option attrValFloat) : Float64 := (attrFVal o).getD 0

/-- Boolean value with the documented default `false` for absence. -/
def attrBD (o : Option attrValBool) : Bool := (attrBVal o).getD false

/-- String value with the documented default `""` for absence. -/
def attrSD (o : Option attrValString) : String := (attrSVal o).getD ""

/-- Build the cached string point list of a resolved range: one `pt` per
resolved cell (indices taken from the resolver, 0-based, possibly with
gaps) and `ptCount` equal to the number of cached points. -/
def buildStrCache (l : List (Nat × String)) : cStrCache :=
  { Pt := l.map (fun p => some { IDx := (p.1 : Int), V := some p.2 })
  , PtCount := some (avI (l.length : Int)) }

/-- Build the cached numeric point list of a resolved range. -/
def buildNumCache (l : List (Nat × String)) : cNumCache :=
  { FormatCode := "General"
  , Pt := l.map (fun p => some { IDx := (p.1 : Int), V := some p.2 })
  , PtCount := some (avI (l.length : Int)) }

/-- A numeric reference with its cache, from a formula and its resolved
range. -/
def mkValRef (f : String) (l : List (Nat × String)) : cVal :=
  { NumRef := some { F := f, NumCache := some (buildNumCache l) } }

/-- A string reference with its cache, from a formula and its resolved
range. -/
def mkCatRef (f : String) (l : List (Nat × String)) : cCat :=
  { StrRef := some { F := f, StrCache := some (buildStrCache l) } }

/-- The series-name text reference (the formula string is preserved; no
cache is built for it). -/
def mkSerName (nm : String) : Option cTx :=
  if nm = "" then none else some { StrRef := some { F := nm } }

/-- Assemble one schema series from the public series and its resolved
ranges, using the kind's series-field mapping (`cat`/`val` versus
`xVal`/`yVal`, plus `bubbleSize` for bubble charts). -/
def buildSer (k : ChartKind) (i : Nat) (s : ChartSeries)
    (vals : List (Nat × String)) (cats : Option (List (Nat × String)))
    (sizes : Option (List (Nat × String))) : cSer :=
  if usesXYVal k then
    { IDx := some (avI (i : Int)), Order := some (avI (i : Int))
    , Tx := mkSerName s.Name
    , XVal := cats.map (mkCatRef s.Categories)
    , YVal := some (mkValRef s.Values vals)
    , BubbleSize := sizes.map (mkValRef s.Sizes) }
  else
    { IDx := some (avI (i : Int)), Order := some (avI (i : Int))
    , Tx := mkSerName s.Name
    , Cat := cats.map (mkCatRef s.Categories)
    , Val := some (mkValRef s.Values vals) }

/-- Whether one public series' references all resolve against the
worksheet collaborator: the value reference must resolve (always), the
category reference when a category formula is set, and the bubble-size
reference for bubble charts with a size formula set. -/
def serResolvable (resolve : RangeResolver) (k : ChartKind) (s : ChartSeries) : Bool :=
  (resolve s.Values).isSome
  && (s.Categories == "" || (resolve s.Categories).isSome)
  && (!(k == ChartKind.bubble && s.Sizes != "") || (resolve s.Sizes).isSome)

/-- The schema series produced for a resolvable public series. -/
def encodeSerPure (resolve : RangeResolver) (k : ChartKind) (i : Nat)
    (s : ChartSeries) : cSer :=
  buildSer k i s ((resolve s.Values).getD [])
    (if s.Categories = "" then none else some ((resolve s.Categories).getD []))
    (if k == ChartKind.bubble && s.Sizes != ""
     then some ((resolve s.Sizes).getD []) else none)

/-- Modelled from the spec: encode one public series, resolving its value
reference (always), its category reference (when a category formula is
set) and its bubble-size reference (bubble charts only) against the
worksheet collaborator at encode time. -/
def encodeSer (resolve : RangeResolver) (k : ChartKind) (i : Nat)
    (s : ChartSeries) : Except EncodeError cSer :=
  if serResolvable resolve k s then .ok (encodeSerPure resolve k i s)
  else .error .SeriesResolutionError

/-- Encode a list of public series, numbering them from `i`. -/
def encodeSeries (resolve : RangeResolver) (k : ChartKind) :
    List ChartSeries → Nat → Except EncodeError (List cSer)
  | [], _ => .ok []
  | s :: rest, i =>
    match encodeSer resolve k i s with
    | .error e => .error e
    | .ok ser =>
      match encodeSeries resolve k rest (i + 1) with
      | .error e => .error e
      | .ok sers => .ok (ser :: sers)

/-- The series list produced when every series is resolvable. -/
def encodeSeriesPure (resolve : RangeResolver) (k : ChartKind) :
    List ChartSeries → Nat → List cSer
  | [], _ => []
  | s :: rest, i => encodeSerPure resolve k i s :: encodeSeriesPure resolve k rest (i + 1)

/-- A title element holding the given rich-text runs. -/
def mkTitle (runs : List RichTextRun) : cTitle :=
  { Tx := { Rich := some { P := runs.map (fun r => { R := some { T := r.Text } }) } }
  , Overlay := some (avB false) }

/-- Default-suppressed optional title: absent when there are no runs. -/
def titleOpt (runs : List RichTextRun) : Option cTitle :=
  if runs.isEmpty then none else some (mkTitle runs)

/-- Default-suppressed optional number format. -/
def encodeNumFmt (n : ChartNumFmt) : Option cNumFmt :=
  if n = {} then none
  else some { FormatCode := n.CustomNumFmt, SourceLinked := n.SourceLinked }

/-- Modelled from the spec: encode one public axis as a schema axis
element carrying the given axis ID and cross-axis back-reference.
Bare-valued public settings (`MajorUnit`, `TickLabelSkip`, `LogBase`) are
emitted only when nonzero (their zero value doubles as "unset"), while
`Maximum`/`Minimum` keep their explicit absent/present encoding. -/
def encodeAxis (id crossID : Int) (ax : ChartAxis) : cAxs :=
  { AxID := some (avI id)
  , Scaling := some
      { LogBase := if ax.LogBase = 0 then none else some (avF ax.LogBase)
      , Orientation := some (avS (if ax.ReverseOrder then "maxMin" else "minMax"))
      , Max := ax.Maximum.map avF
      , Min := ax.Minimum.map avF }
  , Delete := some (avB ax.None)
  , MajorGridlines := if ax.MajorGridLines then some {} else none
  , MinorGridlines := if ax.MinorGridLines then some {} else none
  , Title := titleOpt ax.Title
  , NumFmt := encodeNumFmt ax.NumFmt
  , TickLblPos := some (avS "nextTo")
  , CrossAx := some (avI crossID)
  , MajorUnit := if ax.MajorUnit = 0 then none else some (avF ax.MajorUnit)
  , TickLblSkip := if ax.TickLabelSkip = 0 then none else some (avI ax.TickLabelSkip) }

/-- The fresh series axis emitted for three-axis topologies (it has no
public counterpart). -/
def encodeSerAxis (id crossID : Int) : cAxs :=
  { AxID := some (avI id)
  , Scaling := some { Orientation := some (avS "minMax") }
  , Delete := some (avB false)
  , TickLblPos := some (avS "nextTo")
  , CrossAx := some (avI crossID) }

/-- The deterministic axis-ID list of a chart kind (sequential IDs, as
many as the kind's axis topology requires). -/
def axIdList (k : ChartKind) : List (Option attrValInt) :=
  if axisTopology k = 0 then []
  else if axisTopology k = 3 then [some (avI 1), some (avI 2), some (avI 3)]
  else [some (avI 1), some (avI 2)]

/-- The data-label block of the plot area, built from the public
plot-area flags and the legend's `ShowLegendKey`. -/
def mkDLblsRaw (c : Chart) : cDLbls :=
  { NumFmt := encodeNumFmt c.PlotArea.NumFmt
  , ShowLegendKey := flagOpt c.Legend.ShowLegendKey
  , ShowVal := flagOpt c.PlotArea.ShowVal
  , ShowCatName := flagOpt c.PlotArea.ShowCatName
  , ShowSerName := flagOpt c.PlotArea.ShowSerName
  , ShowPercent := flagOpt c.PlotArea.ShowPercent
  , ShowBubbleSize := flagOpt c.PlotArea.ShowBubbleSize
  , ShowLeaderLines := flagOpt c.PlotArea.ShowLeaderLines }

/-- Default-suppressed data-label block. -/
def mkDLbls (c : Chart) : Option cDLbls :=
  if mkDLblsRaw c = {} then none else some (mkDLblsRaw c)

/-- Modelled from the spec: the chart-kind container, populated from the
public chart using only the fields the dispatch table marks applicable to
the kind; kind-inapplicable fields are ignored (permissive-write). -/
def buildBlock (k : ChartKind) (c : Chart) (sers : List cSer) : cCharts :=
  { BarDir := if k == ChartKind.bar || k == ChartKind.bar3D then some (avS "col") else none
  , BubbleScale :=
      if k == ChartKind.bubble && c.BubbleSize != 0
      then some (avF (c.BubbleSize : Float64)) else none
  , Grouping :=
      match k with
      | .bar | .bar3D | .area | .area3D | .line | .line3D => some (avS "clustered")
      | _ => none
  , RadarStyle := if k == ChartKind.radar then some (avS "marker") else none
  , ScatterStyle := if k == ChartKind.scatter then some (avS "smoothMarker") else none
  , OfPieType := if k == ChartKind.ofPie then some (avS "pie") else none
  , VaryColors := c.VaryColors.map avB
  , Ser := some sers
  , SplitPos :=
      if k == ChartKind.ofPie && c.PlotArea.SecondPlotValues != 0
      then some (avI c.PlotArea.SecondPlotValues) else none
  , DLbls := mkDLbls c
  , Shape := if k == ChartKind.bar3D then some (avS "cuboid") else none
  , HoleSize :=
      if k == ChartKind.doughnut && c.HoleSize != 0
      then some (avI c.HoleSize) else none
  , AxID := axIdList k }

/-- Place the populated chart-kind container into its `cPlotArea` field
(the dispatch table's container selection). -/
def placeBlock (k : ChartKind) (b : cCharts) (pa : cPlotArea) : cPlotArea :=
  match k with
  | .area => { pa with AreaChart := some b }
  | .area3D => { pa with Area3DChart := some b }
  | .bar => { pa with BarChart := some b }
  | .bar3D => { pa with Bar3DChart := some b }
  | .bubble => { pa with BubbleChart := some b }
  | .doughnut => { pa with DoughnutChart := some b }
  | .line => { pa with LineChart := some b }
  | .line3D => { pa with Line3DChart := some b }
  | .pie => { pa with PieChart := some b }
  | .pie3D => { pa with Pie3DChart := some b }
  | .ofPie => { pa with OfPieChart := some b }
  | .radar => { pa with RadarChart := some b }
  | .scatter => { pa with ScatterChart := some b }
  | .surface3D => { pa with Surface3DChart := some b }
  | .surface => { pa with SurfaceChart := some b }

/-- The encoded plot area: the populated container plus the axis elements
the kind's topology requires, wired by sequential axis IDs. -/
def buildPA (k : ChartKind) (c : Chart) (sers : List cSer) : cPlotArea :=
  placeBlock k (buildBlock k c sers)
    { CatAx := if axisTopology k = 0 then [] else [some (encodeAxis 1 2 c.XAxis)]
    , ValAx := if axisTopology k = 0 then [] else [some (encodeAxis 2 1 c.YAxis)]
    , SerAx := if axisTopology k = 3 then [some (encodeSerAxis 3 2)] else [] }

/-- The complete encoded schema tree. -/
def buildTree (k : ChartKind) (c : Chart) (sers : List cSer) : xlsxChartSpace :=
  { XMLNSa := "http://schemas.openxmlformats.org/drawingml/2006/main"
  , Chart :=
    { Title := titleOpt c.Title
    , AutoTitleDeleted := some { Val := c.Title.isEmpty }
    , PlotArea := some (buildPA k c sers)
    , Legend :=
        if c.Legend.Position = "" then none
        else some { LegendPos := some (avS c.Legend.Position)
                  , Overlay := some (avB false) }
    , PlotVisOnly := some (avB true)
    , DispBlanksAs :=
        if c.ShowBlanksAs = "" then none else some (avS c.ShowBlanksAs) } }

/-- Modelled from the spec: the structural axis limit — at most one
primary plus one secondary axis pair per orientation. -/
def axisLimit : Nat := 4

/-- Modelled from the spec: `encode : PublicModel → SchemaTree`.  Chart
kind is dispatched first (`UnsupportedChartType` for unrecognized tags),
the kind's axis topology is checked against the structural axis limit
(`AxisLimitExceeded`), and every series reference is resolved against the
worksheet collaborator at encode time (`SeriesResolutionError`); on
success the fully populated tree is returned. -/
def encode (resolve : RangeResolver) (c : Chart) : Except EncodeError xlsxChartSpace :=
  match chartKindOf c.chartType with
  | none => .error .UnsupportedChartType
  | some k =>
    if axisLimit < axisTopology k then .error .AxisLimitExceeded
    else
      match encodeSeries resolve k c.Series 0 with
      | .error e => .error e
      | .ok sers => .ok (buildTree k c sers)

/-! ## Decode -/

/-- The fifteen chart-kind container fields of a plot area, paired with
their kinds, in schema order. -/
def containerEntries (pa : cPlotArea) : List (ChartKind × Option cCharts) :=
  [(ChartKind.area, pa.AreaChart), (ChartKind.area3D, pa.Area3DChart),
   (ChartKind.bar, pa.BarChart), (ChartKind.bar3D, pa.Bar3DChart),
   (ChartKind.bubble, pa.BubbleChart), (ChartKind.doughnut, pa.DoughnutChart),
   (ChartKind.line, pa.LineChart), (ChartKind.line3D, pa.Line3DChart),
   (ChartKind.pie, pa.PieChart), (ChartKind.pie3D, pa.Pie3DChart),
   (ChartKind.ofPie, pa.OfPieChart), (ChartKind.radar, pa.RadarChart),
   (ChartKind.scatter, pa.ScatterChart), (ChartKind.surface3D, pa.Surface3DChart),
   (ChartKind.surface, pa.SurfaceChart)]

/-- The populated chart-kind containers of a plot area. -/
def containersOf (pa : cPlotArea) : List (ChartKind × cCharts) :=
  (containerEntries pa).filterMap (fun e => e.2.map (fun b => (e.1, b)))

/-- All axis elements of a plot area (category, value and series axes). -/
def axElems (pa : cPlotArea) : List cAxs :=
  (pa.CatAx ++ pa.ValAx ++ pa.SerAx).reduceOption

/-- The axis IDs present among a plot area's axis elements. -/
def axisIDs (pa : cPlotArea) : List Int :=
  (axElems pa).filterMap (fun a => attrIVal a.AxID)

/-- The axis IDs listed by a chart-kind container. -/
def blockAxIDs (b : cCharts) : List Int :=
  b.AxID.filterMap attrIVal

/-- Modelled from the spec: the axis cross-reference checks of decode —
every ID in the container's `axId` list resolves to an axis element in
the same plot area, and every present `crossAx` references the ID of
another axis. -/
def axRefsOK (pa : cPlotArea) (b : cCharts) : Bool :=
  (blockAxIDs b).all (fun v => (axisIDs pa).contains v)
  && (axElems pa).all (fun a =>
       match attrIVal a.CrossAx with
       | none => true
       | some v => (axisIDs pa).contains v && !(attrIVal a.AxID == some v))

/-- Select the axis element (if any) whose ID occurs in the populated
container's `axId` list. -/
def findAxis (axes : List (Option cAxs)) (ids : List Int) : Option cAxs :=
  axes.reduceOption.find? (fun a =>
    match attrIVal a.AxID with
    | some v => ids.contains v
    | none => false)

/-- The title text of one paragraph. -/
def titleTextOf (p : aP) : String := (p.R.map (fun r => r.T)).getD ""

/-- The rich-text runs of an optional title element (absent maps to the
documented default, the empty run list). -/
def decodeRuns (o : Option cTitle) : List RichTextRun :=
  match o with
  | none => []
  | some ti =>
    match ti.Tx.Rich with
    | none => []
    | some rich => rich.P.map (fun p => { Text := titleTextOf p })

/-- Decode an optional number format to the public model (absent maps to
the documented default). -/
def decodeNumFmt (o : Option cNumFmt) : ChartNumFmt :=
  match o with
  | none => {}
  | some n => { CustomNumFmt := n.FormatCode, SourceLinked := n.SourceLinked }

/-- Decode one axis element to the public axis; absent optional fields
map to the public model's documented defaults, and the internal axis ID
is discarded (`axID := 0`). -/
def decodeAxis (a : cAxs) : ChartAxis :=
  let sc := a.Scaling.getD {}
  { None := attrBD a.Delete
  , MajorGridLines := a.MajorGridlines.isSome
  , MinorGridLines := a.MinorGridlines.isSome
  , MajorUnit := attrFD a.MajorUnit
  , TickLabelSkip := attrID a.TickLblSkip
  , ReverseOrder := attrSD sc.Orientation == "maxMin"
  , Maximum := attrFVal sc.Max
  , Minimum := attrFVal sc.Min
  , LogBase := attrFD sc.LogBase
  , NumFmt := decodeNumFmt a.NumFmt
  , Title := decodeRuns a.Title
  , axID := 0 }

/-- The formula string of an optional category (string) reference. -/
def catF (o : Option cCat) : String :=
  ((o.bind (fun x => x.StrRef)).map (fun r => r.F)).getD ""

/-- The formula string of an optional value (numeric) reference. -/
def valF (o : Option cVal) : String :=
  ((o.bind (fun x => x.NumRef)).map (fun r => r.F)).getD ""

/-- Decode one schema series to the public series, selecting the
kind's series-field mapping; formula strings are preserved, cached
values are not re-resolved. -/
def decodeSer (k : ChartKind) (ser : cSer) : ChartSeries :=
  { Name := ((ser.Tx.bind (fun t => t.StrRef)).map (fun r => r.F)).getD ""
  , Categories := if usesXYVal k then catF ser.XVal else catF ser.Cat
  , Values := if usesXYVal k then valF ser.YVal else valF ser.Val
  , Sizes := if k == ChartKind.bubble then valF ser.BubbleSize else "" }

/-- Build the public chart from an accepted tree (total; all optional
fields default when absent). -/
def decodeChart (t : xlsxChartSpace) (pa : cPlotArea) (k : ChartKind) (b : cCharts) : Chart :=
  let d := b.DLbls.getD {}
  { chartType := chartTypeOf k
  , Series := (b.Ser.getD []).map (decodeSer k)
  , Legend := { Position := attrSD (t.Chart.Legend.bind (fun l => l.LegendPos))
              , ShowLegendKey := attrBD d.ShowLegendKey }
  , Title := decodeRuns t.Chart.Title
  , VaryColors := attrBVal b.VaryColors
  , XAxis := ((findAxis pa.CatAx (blockAxIDs b)).map decodeAxis).getD {}
  , YAxis := ((findAxis pa.ValAx (blockAxIDs b)).map decodeAxis).getD {}
  , PlotArea :=
      { SecondPlotValues := if k == ChartKind.ofPie then attrID b.SplitPos else 0
      , ShowBubbleSize := attrBD d.ShowBubbleSize
      , ShowCatName := attrBD d.ShowCatName
      , ShowLeaderLines := attrBD d.ShowLeaderLines
      , ShowPercent := attrBD d.ShowPercent
      , ShowSerName := attrBD d.ShowSerName
      , ShowVal := attrBD d.ShowVal
      , NumFmt := decodeNumFmt d.NumFmt }
  , ShowBlanksAs := attrSD t.Chart.DispBlanksAs
  , BubbleSize := if k == ChartKind.bubble then Int.floor (attrFD b.BubbleScale) else 0
  , HoleSize := if k == ChartKind.doughnut then attrID b.HoleSize else 0 }

/-- Modelled from the spec: the well-formedness condition of decode —
exactly one chart-kind container is populated and every `axId`/`crossAx`
reference resolves within the same plot area. -/
def chartTreeWF (t : xlsxChartSpace) : Bool :=
  match t.Chart.PlotArea with
  | none => false
  | some pa =>
    match containersOf pa with
    | [(_, b)] => axRefsOK pa b
    | _ => false

/-- Decode the plot area: the single populated chart-kind container
selects the kind; zero or several populated containers, or an unresolved
axis reference, are malformed. -/
def decodeArea (t : xlsxChartSpace) (pa : cPlotArea) : Except DecodeError Chart :=
  match containersOf pa with
  | [(k, b)] =>
    if axRefsOK pa b then .ok (decodeChart t pa k b)
    else .error .MalformedChartTree
  | _ => .error .MalformedChartTree

/-- Modelled from the spec: `decode : SchemaTree → PublicModel`.  The
single populated chart-kind container selects the kind; axis IDs are read
only to pair axes with the container and are then discarded; the only
failure is `MalformedChartTree`, on zero or multiple populated containers
or an unresolved axis reference. -/
def decode (t : xlsxChartSpace) : Except DecodeError Chart :=
  match t.Chart.PlotArea with
  | none => .error .MalformedChartTree
  | some pa => decodeArea t pa

/-! ## The dispatch table's applicable-field view

`chartView` materializes, per chart kind, the set of public fields the
dispatch table marks applicable to that kind: the projection of a public
`Chart` onto exactly the data that one encode/decode cycle carries for
that kind. -/

/-- The kind-applicable projection of one public series: reference
formulas always, the size formula only for bubble charts. -/
def serCanon (k : ChartKind) (s : ChartSeries) : ChartSeries :=
  { Name := s.Name
  , Categories := s.Categories
  , Values := s.Values
  , Sizes := if k == ChartKind.bubble then s.Sizes else "" }

/-- The carried fields of a public axis (everything but styling, the
secondary-axis flag and the internal axis ID). -/
structure AxisView where
  Deleted        : Bool := false
  MajorGridLines : Bool := false
  MinorGridLines : Bool := false
  MajorUnit      : Float64 := 0
  TickLabelSkip  : Int := 0
  ReverseOrder   : Bool := false
  Maximum        : Option Float64 := none
  Minimum        : Option Float64 := none
  LogBase        : Float64 := 0
  NumFmt         : ChartNumFmt := {}
  TitleTexts     : List String := []
deriving DecidableEq

/-- Project a public axis onto its carried fields. -/
def axisView (ax : ChartAxis) : AxisView :=
  { Deleted := ax.None
  , MajorGridLines := ax.MajorGridLines
  , MinorGridLines := ax.MinorGridLines
  , MajorUnit := ax.MajorUnit
  , TickLabelSkip := ax.TickLabelSkip
  , ReverseOrder := ax.ReverseOrder
  , Maximum := ax.Maximum
  , Minimum := ax.Minimum
  , LogBase := ax.LogBase
  , NumFmt := ax.NumFmt
  , TitleTexts := ax.Title.map (fun r => r.Text) }

/-- The kind-applicable field set of a public chart. -/
structure ChartView where
  ctype        : ChartType := 0
  series       : List ChartSeries := []
  titleTexts   : List String := []
  varyColors   : Option Bool := none
  legend       : ChartLegend := {}
  plotFlags    : ChartPlotArea := {}
  showBlanksAs : String := ""
  holeSize     : Int := 0
  bubbleScale  : Int := 0
  xAxis        : Option AxisView := none
  yAxis        : Option AxisView := none
deriving DecidableEq

/-- Modelled from the spec: the dispatch table's applicable-field set for
a chart kind, as a projection of the public chart — axis fields apply
only to kinds with axes, `HoleSize` only to doughnut charts, the bubble
scale and series sizes only to bubble charts, second-plot values only to
of-pie charts. -/
def chartView (k : ChartKind) (c : Chart) : ChartView :=
  { ctype := c.chartType
  , series := c.Series.map (serCanon k)
  , titleTexts := c.Title.map (fun r => r.Text)
  , varyColors := c.VaryColors
  , legend := c.Legend
  , plotFlags :=
      { c.PlotArea with
        SecondPlotValues :=
          if k == ChartKind.ofPie then c.PlotArea.SecondPlotValues else 0 }
  , showBlanksAs := c.ShowBlanksAs
  , holeSize := if k == ChartKind.doughnut then c.HoleSize else 0
  , bubbleScale := if k == ChartKind.bubble then c.BubbleSize else 0
  , xAxis := if axisTopology k = 0 then none else some (axisView c.XAxis)
  , yAxis := if axisTopology k = 0 then none else some (axisView c.YAxis) }

attribute [ext] ChartLegend

/-! ## Concrete data for witnesses -/

/-- A concrete worksheet collaborator: every formula resolves; the
formula `"Sheet1!gap"` resolves to a range with a blank gap. -/
def wResolve : RangeResolver := fun f =>
  if f = "Sheet1!gap" then some [(0, "1"), (2, "3")]
  else some [(0, "1"), (1, "2"), (2, "3")]

/-- A concrete bar chart exercising most applicable fields. -/
def wChart : Chart :=
  { chartType := 2
  , Series := [{ Name := "n", Categories := "Sheet1!c", Values := "Sheet1!v" }]
  , Title := [{ Text := "T" }]
  , VaryColors := some true
  , XAxis := { MajorGridLines := true, Maximum := some 10, MajorUnit := 5 }
  , YAxis := { ReverseOrder := true, LogBase := 2 }
  , Legend := { Position := "right", ShowLegendKey := true }
  , PlotArea := { ShowVal := true }
  , ShowBlanksAs := "zero" }

/-- The schema tree encoded from `wChart`. -/
def wTree : xlsxChartSpace := (encode wResolve wChart).toOption.getD {}

/-- The public chart decoded back from `wTree`. -/
def wDecoded : Chart := (decode wTree).toOption.getD {}

/-! ## C3: totality and failure characterization of decode -/

/-- A sparse, schema-valid tree of the given kind: one populated (but
empty) chart-kind container and nothing else. -/
def minimalTree (k : ChartKind) : xlsxChartSpace :=
  { Chart := { PlotArea := some (placeBlock k {} {}) } }

/-- The public chart with every optional field at its documented default
and only the chart-kind tag set. -/
def sparseChart (k : ChartKind) : Chart :=
  { chartType := chartTypeOf k }

/-! ## C4: all-or-nothing encode and its error characterization -/

/-- Whether every series of the chart resolves against the collaborator. -/
def allResolvable (resolve : RangeResolver) (k : ChartKind)
    (ss : List ChartSeries) : Bool :=
  ss.all (fun s => serResolvable resolve k s)

/-! ## C6: cache counts -/

/-- The string cache (if any) behind an optional string reference. -/
def cacheStrOf (o : Option cStrRef) : List cStrCache :=
  (o.bind (fun r => r.StrCache)).toList

/-- The numeric cache (if any) behind an optional numeric reference. -/
def cacheNumOf (o : Option cNumRef) : List cNumCache :=
  (o.bind (fun r => r.NumCache)).toList

/-- All string caches of one schema series (name text, categories,
x-values). -/
def serStrCaches (ser : cSer) : List cStrCache :=
  cacheStrOf (ser.Tx.bind (fun tx => tx.StrRef))
  ++ cacheStrOf (ser.Cat.bind (fun x => x.StrRef))
  ++ cacheStrOf (ser.XVal.bind (fun x => x.StrRef))

/-- All numeric caches of one schema series (values, y-values, bubble
sizes). -/
def serNumCaches (ser : cSer) : List cNumCache :=
  cacheNumOf (ser.Val.bind (fun x => x.NumRef))
  ++ cacheNumOf (ser.YVal.bind (fun x => x.NumRef))
  ++ cacheNumOf (ser.BubbleSize.bind (fun x => x.NumRef))

/-- The string cache (if any) behind an optional title element. -/
def titleStrCaches (o : Option cTitle) : List cStrCache :=
  cacheStrOf (o.bind (fun ti => ti.Tx.StrRef))

/-- All series of a schema tree's populated chart-kind containers. -/
def treeSers (t : xlsxChartSpace) : List cSer :=
  match t.Chart.PlotArea with
  | none => []
  | some pa => (containersOf pa).flatMap (fun e => e.2.Ser.getD [])

/-- All string caches behind the axis titles of a schema tree. -/
def treeAxTitleCaches (t : xlsxChartSpace) : List cStrCache :=
  match t.Chart.PlotArea with
  | none => []
  | some pa => (axElems pa).flatMap (fun a => titleStrCaches a.Title)

/-- Every string cache of a schema tree. -/
def treeStrCaches (t : xlsxChartSpace) : List cStrCache :=
  titleStrCaches t.Chart.Title ++ treeAxTitleCaches t
  ++ (treeSers t).flatMap serStrCaches

/-- Every numeric cache of a schema tree. -/
def treeNumCaches (t : xlsxChartSpace) : List cNumCache :=
  (treeSers t).flatMap serNumCaches

/-- The bar chart whose single series resolves to a range with a gap. -/
def c6chart : Chart := { chartType := 2, Series := [{ Values := "Sheet1!gap" }] }

/-- The tree encoded from `c6chart`. -/
def c6tree : xlsxChartSpace := (encode wResolve c6chart).toOption.getD {}

/-- The first numeric cache of `c6tree`. -/
def c6nc : cNumCache := (treeNumCaches c6tree).headD {}

/-- The plot area of the tree `wTree`. -/
def wPA : cPlotArea := (wTree.Chart.PlotArea).getD {}

/-- The populated container of `wPA`. -/
def wContainer : ChartKind × cCharts := (containersOf wPA).headD (ChartKind.bar, {})

/-! ## C8: series resolving to an empty range -/

/-- The numeric cache of a series' value reference, following the kind's
series-field mapping. -/
def valCacheOf (k : ChartKind) (ser : cSer) : Option cNumCache :=
  ((if usesXYVal k then ser.YVal else ser.Val).bind (fun v => v.NumRef)).bind
    (fun r => r.NumCache)

/-- A resolver under which the formula `"Sheet1!e"` resolves to an empty
range. -/
def c8resolve : RangeResolver := fun f =>
  if f = "Sheet1!e" then some [] else some [(0, "1")]

/-- A line chart whose single series references the empty range. -/
def c8chart : Chart := { chartType := 6, Series := [{ Values := "Sheet1!e" }] }

/-- Consistently rename an optional axis-ID attribute. -/
def renameAv (ren : Int → Int) (o : Option attrValInt) : Option attrValInt :=
  o.map (fun a => { Val := a.Val.map ren })

/-- Consistently rename the ID and cross-reference of one axis element. -/
def renameAx (ren : Int → Int) (a : cAxs) : cAxs :=
  { a with AxID := renameAv ren a.AxID, CrossAx := renameAv ren a.CrossAx }

/-- Consistently rename the axis-ID list of a chart-kind container. -/
def renameBlock (ren : Int → Int) (b : cCharts) : cCharts :=
  { b with AxID := b.AxID.map (renameAv ren) }

/-- Consistently rename every axis-ID occurrence of a plot area. -/
def renamePA (ren : Int → Int) (pa : cPlotArea) : cPlotArea :=
  { pa with
    AreaChart := pa.AreaChart.map (renameBlock ren)
    Area3DChart := pa.Area3DChart.map (renameBlock ren)
    BarChart := pa.BarChart.map (renameBlock ren)
    Bar3DChart := pa.Bar3DChart.map (renameBlock ren)
    BubbleChart := pa.BubbleChart.map (renameBlock ren)
    DoughnutChart := pa.DoughnutChart.map (renameBlock ren)
    LineChart := pa.LineChart.map (renameBlock ren)
    Line3DChart := pa.Line3DChart.map (renameBlock ren)
    PieChart := pa.PieChart.map (renameBlock ren)
    Pie3DChart := pa.Pie3DChart.map (renameBlock ren)
    OfPieChart := pa.OfPieChart.map (renameBlock ren)
    RadarChart := pa.RadarChart.map (renameBlock ren)
    ScatterChart := pa.ScatterChart.map (renameBlock ren)
    Surface3DChart := pa.Surface3DChart.map (renameBlock ren)
    SurfaceChart := pa.SurfaceChart.map (renameBlock ren)
    CatAx := pa.CatAx.map (Option.map (renameAx ren))
    ValAx := pa.ValAx.map (Option.map (renameAx ren))
    SerAx := pa.SerAx.map (Option.map (renameAx ren)) }

/-- Consistently rename every axis-ID occurrence of a schema tree. -/
def renameTree (ren : Int → Int) (t : xlsxChartSpace) : xlsxChartSpace :=
  { t with Chart := { t.Chart with PlotArea := t.Chart.PlotArea.map (renamePA ren) } }

/-! ## Theorems -/

/-! ## Helper lemmas: attribute wrappers and flags -/

theorem attrBVal_map_avB (o : Option Bool) : attrBVal (o.map avB) = o := by
  cases o <;> rfl

theorem attrBD_flagOpt (b : Bool) : attrBD (flagOpt b) = b := by
  cases b <;> rfl

theorem attrSD_avS (s : String) : attrSD (some (avS s)) = s := rfl

theorem attrIVal_avI (i : Int) : attrIVal (some (avI i)) = some i := rfl

theorem decodeNumFmt_encodeNumFmt (n : ChartNumFmt) :
    decodeNumFmt (encodeNumFmt n) = n := by
  by_cases h : n = ({} : ChartNumFmt)
  · simp [encodeNumFmt, decodeNumFmt, h]
  · simp [encodeNumFmt, decodeNumFmt, h]

theorem mkDLbls_getD (c : Chart) : (mkDLbls c).getD {} = mkDLblsRaw c := by
  unfold mkDLbls
  split
  · simp_all
  · rfl

/-! ## Helper lemmas: titles -/

theorem decodeRuns_titleOpt (l : List RichTextRun) :
    decodeRuns (titleOpt l) = l.map (fun r => { Text := r.Text }) := by
  by_cases h : l.isEmpty
  · rw [List.isEmpty_iff.mp h]; rfl
  · simp [titleOpt, h, decodeRuns, mkTitle, titleTextOf, List.map_map]

theorem titleTexts_decodeRuns_titleOpt (l : List RichTextRun) :
    (decodeRuns (titleOpt l)).map (fun r => r.Text) = l.map (fun r => r.Text) := by
  rw [decodeRuns_titleOpt, List.map_map]
  rfl

/-! ## Helper lemmas: series -/

theorem serCanon_idem (k : ChartKind) (s : ChartSeries) :
    serCanon k (serCanon k s) = serCanon k s := by
  unfold serCanon
  split <;> rfl

theorem decodeSer_encodeSerPure (resolve : RangeResolver) (k : ChartKind)
    (i : Nat) (s : ChartSeries) :
    decodeSer k (encodeSerPure resolve k i s) = serCanon k s := by
  cases k <;>
    by_cases hn : s.Name = "" <;> by_cases hc : s.Categories = "" <;>
    by_cases hs : s.Sizes = "" <;>
    simp [hn, hc, hs, usesXYVal, encodeSerPure, buildSer, decodeSer, serCanon,
          mkSerName, mkCatRef, mkValRef, catF, valF]

theorem encodeSeries_ok_of_all (resolve : RangeResolver) (k : ChartKind) :
    ∀ (ss : List ChartSeries) (i : Nat),
      (∀ s ∈ ss, serResolvable resolve k s = true) →
      encodeSeries resolve k ss i = .ok (encodeSeriesPure resolve k ss i) := by
  intro ss
  induction ss with
  | nil => intro i _; rfl
  | cons s rest ih =>
    intro i h
    have hs : serResolvable resolve k s = true := h s (by simp)
    have hrest := ih (i + 1) (fun x hx => h x (by simp [hx]))
    simp [encodeSeries, encodeSer, hs, hrest, encodeSeriesPure]

theorem encodeSeries_ok_inv (resolve : RangeResolver) (k : ChartKind) :
    ∀ (ss : List ChartSeries) (i : Nat) (sers : List cSer),
      encodeSeries resolve k ss i = .ok sers →
      (∀ s ∈ ss, serResolvable resolve k s = true) ∧
        sers = encodeSeriesPure resolve k ss i := by
  intro ss
  induction ss with
  | nil =>
    intro i sers h
    have h2 : sers = [] := by simpa [encodeSeries] using h.symm
    exact ⟨by simp, by simp [h2, encodeSeriesPure]⟩
  | cons s rest ih =>
    intro i sers h
    by_cases hs : serResolvable resolve k s = true
    · simp only [encodeSeries, encodeSer, hs, if_true] at h
      cases hr : encodeSeries resolve k rest (i + 1) with
      | error e => rw [hr] at h; exact absurd h (by simp)
      | ok sers2 =>
        rw [hr] at h
        have := ih (i + 1) sers2 hr
        simp only [Except.ok.injEq] at h
        constructor
        · intro x hx
          rcases List.mem_cons.mp hx with h1 | h2
          · rw [h1]; exact hs
          · exact this.1 x h2
        · rw [h.symm, encodeSeriesPure, this.2]
    · simp [encodeSeries, encodeSer, hs] at h

theorem encodeSeries_error_inv (resolve : RangeResolver) (k : ChartKind) :
    ∀ (ss : List ChartSeries) (i : Nat) (e : EncodeError),
      encodeSeries resolve k ss i = .error e →
      e = .SeriesResolutionError ∧ ∃ s ∈ ss, serResolvable resolve k s = false := by
  intro ss
  induction ss with
  | nil => intro i e h; simp [encodeSeries] at h
  | cons s rest ih =>
    intro i e h
    by_cases hs : serResolvable resolve k s = true
    · simp only [encodeSeries, encodeSer, hs, if_true] at h
      cases hr : encodeSeries resolve k rest (i + 1) with
      | error e2 =>
        rw [hr] at h
        simp only [Except.error.injEq] at h
        rcases ih (i + 1) e2 hr with ⟨he, x, hx, hxr⟩
        subst h
        exact ⟨he, x, by simp [hx], hxr⟩
      | ok sers2 => rw [hr] at h; exact absurd h (by simp)
    · simp only [encodeSeries, encodeSer, hs, if_false, Bool.false_eq_true] at h
      simp only [Except.error.injEq] at h
      exact ⟨h.symm, s, by simp, by simpa using hs⟩

theorem encodeSeriesPure_get (resolve : RangeResolver) (k : ChartKind) :
    ∀ (ss : List ChartSeries) (i j : Nat),
      (encodeSeriesPure resolve k ss i).get? j =
        (ss.get? j).map (fun s => encodeSerPure resolve k (i + j) s) := by
  intro ss
  induction ss with
  | nil => intro i j; cases j <;> rfl
  | cons s rest ih =>
    intro i j
    cases j with
    | zero => rfl
    | succ j2 =>
      simp only [encodeSeriesPure, List.get?_cons_succ, ih (i + 1) j2]
      rw [show i + 1 + j2 = i + (j2 + 1) from by omega]

/-! ## Helper lemmas: plot-area structure -/

theorem containersOf_buildPA (k : ChartKind) (c : Chart) (sers : List cSer) :
    containersOf (buildPA k c sers) = [(k, buildBlock k c sers)] := by
  cases k <;> rfl

theorem axRefsOK_buildPA (k : ChartKind) (c : Chart) (sers : List cSer) :
    axRefsOK (buildPA k c sers) (buildBlock k c sers) = true := by
  cases k <;> rfl

theorem decode_buildTree (k : ChartKind) (c : Chart) (sers : List cSer) :
    decode (buildTree k c sers) =
      .ok (decodeChart (buildTree k c sers) (buildPA k c sers) k
            (buildBlock k c sers)) := by
  have h1 := containersOf_buildPA k c sers
  have h2 := axRefsOK_buildPA k c sers
  unfold decode decodeArea
  simp [buildTree, h1, h2]

theorem chartTypeOf_chartKindOf {t : ChartType} {k : ChartKind}
    (h : chartKindOf t = some k) : chartTypeOf k = t := by
  unfold chartKindOf at h
  split at h <;> simp_all <;> rw [h.symm] <;> rfl

theorem map_decodeSer_encodeSeriesPure (resolve : RangeResolver) (k : ChartKind) :
    ∀ (ss : List ChartSeries) (i : Nat),
      (encodeSeriesPure resolve k ss i).map (decodeSer k) = ss.map (serCanon k) := by
  intro ss
  induction ss with
  | nil => intro i; rfl
  | cons s rest ih =>
    intro i
    simp only [encodeSeriesPure, List.map_cons, decodeSer_encodeSerPure, ih (i + 1)]

/-! ## Helper lemmas: axis round trip -/

theorem attrBD_some_avB (b : Bool) : attrBD (some (avB b)) = b := by
  cases b <;> rfl

theorem isSome_boolIf (b : Bool) (x : cChartLines) :
    (if b then some x else none).isSome = b := by
  cases b <;> simp

theorem attrFD_suppress (v : Float64) :
    attrFD (if v = 0 then none else some (avF v)) = v := by
  by_cases h : v = 0 <;> simp [h, attrFD, attrFVal, avF]

theorem attrID_suppress (v : Int) :
    attrID (if v = 0 then none else some (avI v)) = v := by
  by_cases h : v = 0 <;> simp [h, attrID, attrIVal, avI]

theorem attrSD_orientation (b : Bool) :
    (attrSD (some (avS (if b then "maxMin" else "minMax"))) == "maxMin") = b := by
  cases b <;> simp [attrSD, attrSVal, avS]

theorem attrFVal_map_avF (o : Option Float64) : attrFVal (o.map avF) = o := by
  cases o <;> rfl

theorem axisView_decodeAxis_encodeAxis (i j : Int) (ax : ChartAxis) :
    axisView (decodeAxis (encodeAxis i j ax)) = axisView ax := by
  unfold decodeAxis encodeAxis
  simp [axisView, attrBD_some_avB, attrFD_suppress, attrID_suppress,
        attrSD_orientation, attrFVal_map_avF, decodeNumFmt_encodeNumFmt,
        titleTexts_decodeRuns_titleOpt, isSome_boolIf]

/-! ## Helper lemmas: projections of the encoded tree -/

theorem placeBlock_CatAx (k : ChartKind) (b : cCharts) (pa : cPlotArea) :
    (placeBlock k b pa).CatAx = pa.CatAx := by
  cases k <;> rfl

theorem placeBlock_ValAx (k : ChartKind) (b : cCharts) (pa : cPlotArea) :
    (placeBlock k b pa).ValAx = pa.ValAx := by
  cases k <;> rfl

theorem placeBlock_SerAx (k : ChartKind) (b : cCharts) (pa : cPlotArea) :
    (placeBlock k b pa).SerAx = pa.SerAx := by
  cases k <;> rfl

theorem buildPA_CatAx (k : ChartKind) (c : Chart) (sers : List cSer) :
    (buildPA k c sers).CatAx =
      if axisTopology k = 0 then [] else [some (encodeAxis 1 2 c.XAxis)] := by
  unfold buildPA
  rw [placeBlock_CatAx]

theorem buildPA_ValAx (k : ChartKind) (c : Chart) (sers : List cSer) :
    (buildPA k c sers).ValAx =
      if axisTopology k = 0 then [] else [some (encodeAxis 2 1 c.YAxis)] := by
  unfold buildPA
  rw [placeBlock_ValAx]

theorem blockAxIDs_buildBlock (k : ChartKind) (c : Chart) (sers : List cSer) :
    blockAxIDs (buildBlock k c sers) =
      if axisTopology k = 0 then []
      else if axisTopology k = 3 then [1, 2, 3] else [1, 2] := by
  unfold blockAxIDs buildBlock axIdList
  split_ifs <;> rfl

theorem blockAxIDs_contains_one (k : ChartKind) (c : Chart) (sers : List cSer)
    (h : ¬ axisTopology k = 0) :
    (blockAxIDs (buildBlock k c sers)).contains 1 = true := by
  rw [blockAxIDs_buildBlock]
  split_ifs <;> rfl

theorem blockAxIDs_contains_two (k : ChartKind) (c : Chart) (sers : List cSer)
    (h : ¬ axisTopology k = 0) :
    (blockAxIDs (buildBlock k c sers)).contains 2 = true := by
  rw [blockAxIDs_buildBlock]
  split_ifs <;> rfl

theorem encodeAxis_AxID (i j : Int) (ax : ChartAxis) :
    (encodeAxis i j ax).AxID = some (avI i) := rfl

theorem findAxis_single (a : cAxs) (ids : List Int) (v : Int)
    (hv : attrIVal a.AxID = some v) (hc : ids.contains v = true) :
    findAxis [some a] ids = some a := by
  have hmem : v ∈ ids := by simpa using hc
  simp [findAxis, List.find?, hv, hmem]

theorem chartView_decodeChart (k : ChartKind) (c : Chart) (sers : List cSer)
    (hk : chartTypeOf k = c.chartType)
    (hsers : sers.map (decodeSer k) = c.Series.map (serCanon k)) :
    chartView k (decodeChart (buildTree k c sers) (buildPA k c sers) k
      (buildBlock k c sers)) = chartView k c := by
  have hd : (buildBlock k c sers).DLbls.getD {} = mkDLblsRaw c := mkDLbls_getD c
  unfold chartView decodeChart
  simp only [ChartView.mk.injEq, hd]
  refine ⟨hk, ?_, ?_, ?_, ?_, ?_, ?_, ?_, ?_, ?_, ?_⟩
  · -- series
    rw [show (buildBlock k c sers).Ser = some sers from rfl]
    rw [show (some sers).getD [] = sers from rfl, hsers]
    simp [List.map_map, Function.comp_def, serCanon_idem]
  · -- title texts
    exact titleTexts_decodeRuns_titleOpt c.Title
  · -- vary colors
    exact attrBVal_map_avB c.VaryColors
  · -- legend
    have hkey : attrBD (mkDLblsRaw c).ShowLegendKey = c.Legend.ShowLegendKey := by
      rw [show (mkDLblsRaw c).ShowLegendKey = flagOpt c.Legend.ShowLegendKey from rfl]
      exact attrBD_flagOpt c.Legend.ShowLegendKey
    rw [show (buildTree k c sers).Chart.Legend =
        (if c.Legend.Position = "" then none
         else some { LegendPos := some (avS c.Legend.Position)
                   , Overlay := some (avB false) }) from rfl]
    refine ChartLegend.ext ?_ ?_
    · by_cases hp : c.Legend.Position = "" <;> simp [hp, attrSD, attrSVal, avS]
    · exact hkey
  · -- plot-area flags
    simp only [ChartPlotArea.mk.injEq]
    refine ⟨?_, ?_, ?_, ?_, ?_, ?_, ?_, ?_⟩
    · by_cases hop : (k == ChartKind.ofPie) = true
      · simp only [hop, if_true]
        rw [show (buildBlock k c sers).SplitPos =
            (if k == ChartKind.ofPie && c.PlotArea.SecondPlotValues != 0
             then some (avI c.PlotArea.SecondPlotValues) else none) from rfl]
        simp only [hop, Bool.true_and]
        by_cases hv : c.PlotArea.SecondPlotValues = 0
        · simp [hv, attrID, attrIVal]
        · simp [hv, attrID, attrIVal, avI]
      · simp [hop]
    · exact attrBD_flagOpt c.PlotArea.ShowBubbleSize
    · exact attrBD_flagOpt c.PlotArea.ShowCatName
    · exact attrBD_flagOpt c.PlotArea.ShowLeaderLines
    · exact attrBD_flagOpt c.PlotArea.ShowPercent
    · exact attrBD_flagOpt c.PlotArea.ShowSerName
    · exact attrBD_flagOpt c.PlotArea.ShowVal
    · exact decodeNumFmt_encodeNumFmt c.PlotArea.NumFmt
  · -- show blanks
    rw [show (buildTree k c sers).Chart.DispBlanksAs =
        (if c.ShowBlanksAs = "" then none else some (avS c.ShowBlanksAs)) from rfl]
    by_cases hb : c.ShowBlanksAs = ""
    · simp [hb, attrSD, attrSVal]
    · simp [hb, attrSD, attrSVal, avS]
  · -- hole size
    by_cases hdo : (k == ChartKind.doughnut) = true
    · simp only [hdo, if_true]
      rw [show (buildBlock k c sers).HoleSize =
          (if k == ChartKind.doughnut && c.HoleSize != 0
           then some (avI c.HoleSize) else none) from rfl]
      simp only [hdo, Bool.true_and]
      by_cases hv : c.HoleSize = 0
      · simp [hv, attrID, attrIVal]
      · simp [hv, attrID, attrIVal, avI]
    · simp [hdo]
  · -- bubble scale
    by_cases hbu : (k == ChartKind.bubble) = true
    · simp only [hbu, if_true]
      rw [show (buildBlock k c sers).BubbleScale =
          (if k == ChartKind.bubble && c.BubbleSize != 0
           then some (avF (c.BubbleSize : Float64)) else none) from rfl]
      simp only [hbu, Bool.true_and]
      by_cases hv : c.BubbleSize = 0
      · simp [hv, attrFD, attrFVal]
      · simp [hv, attrFD, attrFVal, avF]
    · simp [hbu]
  · -- x axis
    by_cases h0 : axisTopology k = 0
    · simp [h0]
    · simp only [h0, if_false]
      rw [buildPA_CatAx]
      simp only [h0, if_false]
      rw [findAxis_single (encodeAxis 1 2 c.XAxis) _ 1 rfl
            (blockAxIDs_contains_one k c sers h0)]
      simp [axisView_decodeAxis_encodeAxis]
  · -- y axis
    by_cases h0 : axisTopology k = 0
    · simp [h0]
    · simp only [h0, if_false]
      rw [buildPA_ValAx]
      simp only [h0, if_false]
      rw [findAxis_single (encodeAxis 2 1 c.YAxis) _ 2 rfl
            (blockAxIDs_contains_two k c sers h0)]
      simp [axisView_decodeAxis_encodeAxis]

/-! ## Inversion of a successful encode -/

theorem axisTopology_le (k : ChartKind) : axisTopology k ≤ axisLimit := by
  cases k <;> decide

theorem encode_ok_inv (resolve : RangeResolver) (c : Chart) (t : xlsxChartSpace)
    (h : encode resolve c = .ok t) :
    ∃ k, chartKindOf c.chartType = some k ∧
      (∀ s ∈ c.Series, serResolvable resolve k s = true) ∧
      t = buildTree k c (encodeSeriesPure resolve k c.Series 0) := by
  unfold encode at h
  cases hk : chartKindOf c.chartType with
  | none => rw [hk] at h; exact absurd h (by simp)
  | some k =>
    rw [hk] at h
    have hlim : ¬ axisLimit < axisTopology k := by
      have := axisTopology_le k; omega
    simp only [hlim, if_false] at h
    cases hs : encodeSeries resolve k c.Series 0 with
    | error e => rw [hs] at h; exact absurd h (by simp)
    | ok sers =>
      rw [hs] at h
      simp only [Except.ok.injEq] at h
      obtain ⟨hall, hpure⟩ := encodeSeries_ok_inv resolve k c.Series 0 sers hs
      exact ⟨k, rfl, hall, by rw [← h, hpure]⟩

/-! ## C1: round trip -/

/-- Claim C1: For every public `Chart` value that encode accepts, decoding
the encoded tree succeeds and yields a chart equal to the original in
every field of the dispatch table's applicable-field set for its kind
(`chartView`); fields outside the kind's applicable set may come back
reset to their documented defaults. -/
theorem c1_roundtrip (resolve : RangeResolver) (c : Chart) (t : xlsxChartSpace)
    (h : encode resolve c = .ok t) :
    ∃ k d, chartKindOf c.chartType = some k ∧ decode t = .ok d ∧
      chartView k d = chartView k c := by
  obtain ⟨k, hk, hall, ht⟩ := encode_ok_inv resolve c t h
  subst ht
  refine ⟨k, _, hk, decode_buildTree k c _, ?_⟩
  exact chartView_decodeChart k c _ (chartTypeOf_chartKindOf hk)
    (map_decodeSer_encodeSeriesPure resolve k c.Series 0)

/-- Witness for C1 at the concrete bar chart `wChart`. -/
theorem c1_roundtrip_witness :
    ∃ k d, chartKindOf wChart.chartType = some k ∧ decode wTree = .ok d ∧
      chartView k d = chartView k wChart :=
  c1_roundtrip wResolve wChart wTree (by decide)

/-! ## C2: mutual exclusivity of the chart-kind containers -/

/-- Claim C2: Every schema tree produced by a successful encode has a plot
area in which exactly one of the fifteen chart-kind container fields is
populated (`containersOf` enumerates all fifteen). -/
theorem c2_exactly_one_container (resolve : RangeResolver) (c : Chart)
    (t : xlsxChartSpace) (h : encode resolve c = .ok t) :
    ∃ pa, t.Chart.PlotArea = some pa ∧ (containersOf pa).length = 1 := by
  obtain ⟨k, -, -, ht⟩ := encode_ok_inv resolve c t h
  subst ht
  exact ⟨buildPA k c _, rfl, by rw [containersOf_buildPA]; rfl⟩

/-- Witness for C2 at the concrete bar chart `wChart`. -/
theorem c2_exactly_one_container_witness :
    ∃ pa, wTree.Chart.PlotArea = some pa ∧ (containersOf pa).length = 1 :=
  c2_exactly_one_container wResolve wChart wTree (by decide)

/-! ## C5: three-state optional booleans -/

theorem omitemptyBool_eq_none (b : Bool) : omitemptyBool b = none ↔ b = false := by
  cases b <;> simp [omitemptyBool]

/-- Claim C5, counterexample: The claim asserts that `ScaleCrop`,
`LinksUpToDate` and `HyperlinksChanged` of `xlsxProperties` use a
three-state encoding distinguishing absent from present-false.  They do
not: they are plain Go `bool`s tagged `omitempty`, so the explicit value
`false` serializes to the absent element — present-false is not
representable. -/
theorem c5_counterexample :
    scaleCropSerialized { ScaleCrop := false } = none ∧
    linksUpToDateSerialized { LinksUpToDate := false } = none ∧
    hyperlinksChangedSerialized { HyperlinksChanged := false } = none :=
  ⟨rfl, rfl, rfl⟩

/-- Claim C5, amended: The optional `autoTitleDeleted` element (a pointer
field wrapping a bare `val` attribute) genuinely has three distinguishable
serialized states — absent, present-false and present-true; but the
boolean flags of `xlsxProperties` (`ScaleCrop`, `LinksUpToDate`,
`HyperlinksChanged`) are two-state: their element is absent exactly when
the value is false, so false and absent collapse. -/
theorem c5_amended_flags :
    ([autoTitleDeletedSerialized { AutoTitleDeleted := none },
      autoTitleDeletedSerialized { AutoTitleDeleted := some { Val := false } },
      autoTitleDeletedSerialized { AutoTitleDeleted := some { Val := true } }].Nodup) ∧
    (∀ p : xlsxProperties,
      scaleCropSerialized p = omitemptyBool p.ScaleCrop ∧
      (scaleCropSerialized p = none ↔ p.ScaleCrop = false) ∧
      (linksUpToDateSerialized p = none ↔ p.LinksUpToDate = false) ∧
      (hyperlinksChangedSerialized p = none ↔ p.HyperlinksChanged = false)) := by
  refine ⟨by decide, fun p => ⟨rfl, ?_, ?_, ?_⟩⟩
  · exact omitemptyBool_eq_none p.ScaleCrop
  · exact omitemptyBool_eq_none p.LinksUpToDate
  · exact omitemptyBool_eq_none p.HyperlinksChanged

/-! ## C10: bare-valued versus optional axis settings -/

/-- Claim C10: In the public `ChartAxis`, only `Maximum` and `Minimum`
carry an explicit absent state across encode (their schema elements
mirror the `Option` exactly, so `some 0` and `none` stay distinct);
`MajorUnit`, `TickLabelSkip` and `LogBase` are bare values whose zero
value is treated as absent: their schema element is omitted exactly when
the public value is zero. -/
theorem c10_axis_optionality (ax : ChartAxis) (i j : Int) :
    ((encodeAxis i j ax).MajorUnit = none ↔ ax.MajorUnit = 0) ∧
    ((encodeAxis i j ax).TickLblSkip = none ↔ ax.TickLabelSkip = 0) ∧
    (((encodeAxis i j ax).Scaling.getD {}).LogBase = none ↔ ax.LogBase = 0) ∧
    ((encodeAxis i j ax).Scaling.getD {}).Max = ax.Maximum.map avF ∧
    ((encodeAxis i j ax).Scaling.getD {}).Min = ax.Minimum.map avF ∧
    (((encodeAxis i j ax).Scaling.getD {}).Max = none ↔ ax.Maximum = none) := by
  refine ⟨?_, ?_, ?_, rfl, rfl, ?_⟩
  · by_cases h : ax.MajorUnit = 0 <;> simp [encodeAxis, h]
  · by_cases h : ax.TickLabelSkip = 0 <;> simp [encodeAxis, h]
  · by_cases h : ax.LogBase = 0 <;> simp [encodeAxis, h]
  · cases h : ax.Maximum <;> simp [encodeAxis, h]

/-- Claim C3: Decode fails (and then only with `MalformedChartTree`)
exactly on trees violating the well-formedness condition — zero or more
than one populated chart-kind container, or an unresolved `axId`/`crossAx`
reference; on any well-formed tree it succeeds, however sparse, and a
minimal tree of each kind decodes to the public chart with every optional
field at its documented default. -/
theorem c3_decode_total :
    (∀ t : xlsxChartSpace,
       decode t = .error .MalformedChartTree ↔ chartTreeWF t = false) ∧
    (∀ t : xlsxChartSpace, (∃ c, decode t = .ok c) ↔ chartTreeWF t = true) ∧
    (∀ k : ChartKind, decode (minimalTree k) = .ok (sparseChart k)) := by
  have hmain : ∀ t : xlsxChartSpace,
      (decode t = .error .MalformedChartTree ↔ chartTreeWF t = false) ∧
      ((∃ c, decode t = .ok c) ↔ chartTreeWF t = true) := by
    intro t
    unfold decode decodeArea chartTreeWF
    cases hpa : t.Chart.PlotArea with
    | none => simp [hpa]
    | some pa =>
      cases hco : containersOf pa with
      | nil => simp [hpa, hco]
      | cons x rest =>
        cases rest with
        | nil =>
          obtain ⟨k, b⟩ := x
          by_cases hok : axRefsOK pa b = true <;> simp [hpa, hco, hok]
        | cons y ys => simp [hpa, hco]
  refine ⟨fun t => (hmain t).1, fun t => (hmain t).2, fun k => ?_⟩
  cases k <;> decide

/-- Claim C4: Encode is all-or-nothing: it returns a complete tree or one
of the three errors, and each error occurs exactly under its documented
condition — `UnsupportedChartType` exactly when the kind tag is not in
the dispatch table, `AxisLimitExceeded` exactly when the kind's axis
topology would exceed the structural limit of one primary plus one
secondary pair per orientation (which no recognized kind does), and
`SeriesResolutionError` exactly when some series reference does not
resolve. -/
theorem c4_encode_errors (resolve : RangeResolver) (c : Chart) :
    (encode resolve c = .error .UnsupportedChartType ↔
       chartKindOf c.chartType = none) ∧
    (encode resolve c = .error .AxisLimitExceeded ↔
       ∃ k, chartKindOf c.chartType = some k ∧ axisLimit < axisTopology k) ∧
    (encode resolve c = .error .SeriesResolutionError ↔
       ∃ k, chartKindOf c.chartType = some k ∧
         allResolvable resolve k c.Series = false) ∧
    ((∃ t, encode resolve c = .ok t) ∨
       (∃ e, encode resolve c = .error e)) := by
  unfold encode
  cases hk : chartKindOf c.chartType with
  | none => simp
  | some k =>
    have hlim : ¬ axisLimit < axisTopology k := by
      have := axisTopology_le k; omega
    simp only [hlim, if_false]
    cases hs : encodeSeries resolve k c.Series 0 with
    | ok sers =>
      obtain ⟨hall, -⟩ := encodeSeries_ok_inv resolve k c.Series 0 sers hs
      have hallb : allResolvable resolve k c.Series = true := by
        simp only [allResolvable, List.all_eq_true]
        exact hall
      simp [hlim, hallb]
    | error e =>
      obtain ⟨he, s, hsmem, hsres⟩ := encodeSeries_error_inv resolve k c.Series 0 e hs
      subst he
      have hallb : allResolvable resolve k c.Series = false := by
        simp only [allResolvable]
        rw [← Bool.not_eq_true, List.all_eq_true]
        push_neg
        exact ⟨s, hsmem, by simp [hsres]⟩
      simp [hlim, hallb]

theorem buildStrCache_count (l : List (Nat × String)) :
    (buildStrCache l).PtCount = some (avI ((buildStrCache l).Pt.length : Int)) := by
  simp [buildStrCache]

theorem buildNumCache_count (l : List (Nat × String)) :
    (buildNumCache l).PtCount = some (avI ((buildNumCache l).Pt.length : Int)) := by
  simp [buildNumCache]

theorem serStrCaches_encodeSerPure (resolve : RangeResolver) (k : ChartKind)
    (i : Nat) (s : ChartSeries) :
    ∀ sc ∈ serStrCaches (encodeSerPure resolve k i s),
      sc.PtCount = some (avI (sc.Pt.length : Int)) := by
  intro sc hsc
  unfold serStrCaches cacheStrOf encodeSerPure buildSer mkSerName mkCatRef mkValRef at hsc
  by_cases hxy : usesXYVal k = true <;>
    by_cases hn : s.Name = "" <;> by_cases hc : s.Categories = "" <;>
    simp [hxy, hn, hc] at hsc <;>
    rw [hsc] <;> exact buildStrCache_count _

theorem serNumCaches_encodeSerPure (resolve : RangeResolver) (k : ChartKind)
    (i : Nat) (s : ChartSeries) :
    ∀ nc ∈ serNumCaches (encodeSerPure resolve k i s),
      nc.PtCount = some (avI (nc.Pt.length : Int)) := by
  intro nc hnc
  unfold serNumCaches cacheNumOf encodeSerPure buildSer mkSerName mkCatRef mkValRef at hnc
  by_cases hxy : usesXYVal k = true <;>
    by_cases hbs : (k == ChartKind.bubble && s.Sizes != "") = true <;>
    simp [hxy, hbs] at hnc <;>
    first
      | exact buildNumCache_count _
      | (subst hnc; exact buildNumCache_count _)
      | (rcases hnc with rfl | rfl <;> exact buildNumCache_count _)

theorem mem_encodeSeriesPure (resolve : RangeResolver) (k : ChartKind) :
    ∀ (ss : List ChartSeries) (i : Nat) (ser : cSer),
      ser ∈ encodeSeriesPure resolve k ss i →
      ∃ j s, s ∈ ss ∧ ser = encodeSerPure resolve k j s := by
  intro ss
  induction ss with
  | nil => intro i ser h; exact absurd h (by simp [encodeSeriesPure])
  | cons s rest ih =>
    intro i ser h
    rcases List.mem_cons.mp h with h1 | h2
    · exact ⟨i, s, by simp, h1⟩
    · obtain ⟨j, x, hx, hser⟩ := ih (i + 1) ser h2
      exact ⟨j, x, by simp [hx], hser⟩

theorem buildPA_SerAx (k : ChartKind) (c : Chart) (sers : List cSer) :
    (buildPA k c sers).SerAx =
      if axisTopology k = 3 then [some (encodeSerAxis 3 2)] else [] := by
  unfold buildPA
  rw [placeBlock_SerAx]

theorem titleStrCaches_titleOpt (l : List RichTextRun) :
    titleStrCaches (titleOpt l) = [] := by
  unfold titleOpt titleStrCaches cacheStrOf mkTitle
  split <;> simp

theorem treeSers_buildTree (k : ChartKind) (c : Chart) (sers : List cSer) :
    treeSers (buildTree k c sers) = sers := by
  unfold treeSers
  rw [show (buildTree k c sers).Chart.PlotArea = some (buildPA k c sers) from rfl]
  simp [containersOf_buildPA]
  try rfl

theorem axTitle_buildPA (k : ChartKind) (c : Chart) (sers : List cSer) :
    ∀ a ∈ axElems (buildPA k c sers), titleStrCaches a.Title = [] := by
  intro a ha
  unfold axElems at ha
  rw [buildPA_CatAx, buildPA_ValAx, buildPA_SerAx] at ha
  by_cases h0 : axisTopology k = 0 <;> by_cases h3 : axisTopology k = 3 <;>
    simp [h0, h3] at ha
  · rcases ha with ha | ha | ha <;> rw [ha]
    · exact titleStrCaches_titleOpt c.XAxis.Title
    · exact titleStrCaches_titleOpt c.YAxis.Title
    · rfl
  · rcases ha with ha | ha <;> rw [ha]
    · exact titleStrCaches_titleOpt c.XAxis.Title
    · exact titleStrCaches_titleOpt c.YAxis.Title

theorem treeAxTitleCaches_buildTree (k : ChartKind) (c : Chart) (sers : List cSer) :
    treeAxTitleCaches (buildTree k c sers) = [] := by
  unfold treeAxTitleCaches
  rw [show (buildTree k c sers).Chart.PlotArea = some (buildPA k c sers) from rfl]
  rw [List.eq_nil_iff_forall_not_mem]
  intro x hx
  rcases List.mem_flatMap.mp hx with ⟨a, ha, hxa⟩
  rw [axTitle_buildPA k c sers a ha] at hxa
  exact absurd hxa (List.not_mem_nil x)

/-- Claim C6: In every schema tree produced by encode, each string or
numeric cache carries a `PtCount` equal to the number of its cached
point entries, while the 0-based point indices need not be contiguous:
the concrete tree `c6tree` has a cache whose indices are `[0, 2]` (a gap
for a blank) with `PtCount = 2`. -/
theorem c6_cache_counts :
    (∀ (resolve : RangeResolver) (c : Chart) (t : xlsxChartSpace),
       encode resolve c = .ok t →
       (∀ sc ∈ treeStrCaches t, sc.PtCount = some (avI (sc.Pt.length : Int))) ∧
       (∀ nc ∈ treeNumCaches t, nc.PtCount = some (avI (nc.Pt.length : Int)))) ∧
    (∃ nc ∈ treeNumCaches c6tree,
       nc.PtCount = some (avI (nc.Pt.length : Int)) ∧
       nc.Pt.map (fun p => (p.map (fun q => q.IDx)).getD 0) = [0, 2]) := by
  constructor
  · intro resolve c t h
    obtain ⟨k, -, -, ht⟩ := encode_ok_inv resolve c t h
    subst ht
    constructor
    · intro sc hsc
      unfold treeStrCaches at hsc
      rw [show (buildTree k c (encodeSeriesPure resolve k c.Series 0)).Chart.Title =
            titleOpt c.Title from rfl,
          titleStrCaches_titleOpt, treeAxTitleCaches_buildTree,
          treeSers_buildTree] at hsc
      simp only [List.nil_append] at hsc
      rcases List.mem_flatMap.mp hsc with ⟨ser, hser, hsc2⟩
      obtain ⟨j, s, -, hser2⟩ := mem_encodeSeriesPure resolve k c.Series 0 ser hser
      subst hser2
      exact serStrCaches_encodeSerPure resolve k j s sc hsc2
    · intro nc hnc
      unfold treeNumCaches at hnc
      rw [treeSers_buildTree] at hnc
      rcases List.mem_flatMap.mp hnc with ⟨ser, hser, hnc2⟩
      obtain ⟨j, s, -, hser2⟩ := mem_encodeSeriesPure resolve k c.Series 0 ser hser
      subst hser2
      exact serNumCaches_encodeSerPure resolve k j s nc hnc2
  · decide

/-- Witness for C6 at the concrete cache of `c6tree`. -/
theorem c6_cache_counts_witness :
    c6nc.PtCount = some (avI (c6nc.Pt.length : Int)) :=
  (c6_cache_counts.1 wResolve c6chart c6tree (by decide)).2 c6nc (by decide)

/-! ## C7: axis cross-reference closure of accepted trees -/

/-- Claim C7: For every tree that decode accepts, each axis ID listed by a
populated chart-kind container resolves to an axis element with that ID
in the same plot area, and each present `crossAx` value equals the axis
ID of some other axis element of the same plot area. -/
theorem c7_axis_closure (t : xlsxChartSpace) (c : Chart) (pa : cPlotArea)
    (h : decode t = .ok c) (hpa : t.Chart.PlotArea = some pa) :
    (∀ e ∈ containersOf pa, ∀ v ∈ blockAxIDs e.2,
       ∃ b ∈ axElems pa, attrIVal b.AxID = some v) ∧
    (∀ a ∈ axElems pa, ∀ v, attrIVal a.CrossAx = some v →
       ∃ b ∈ axElems pa, b ≠ a ∧ attrIVal b.AxID = some v) := by
  unfold decode at h
  rw [hpa] at h
  replace h : decodeArea t pa = .ok c := h
  unfold decodeArea at h
  cases hco : containersOf pa with
  | nil => rw [hco] at h; exact absurd h (by simp)
  | cons x rest =>
    cases rest with
    | cons y ys => rw [hco] at h; exact absurd h (by simp)
    | nil =>
      obtain ⟨k, b0⟩ := x
      rw [hco] at h
      replace h : (if axRefsOK pa b0 = true then Except.ok (decodeChart t pa k b0)
          else Except.error DecodeError.MalformedChartTree) = Except.ok c := h
      by_cases hok : axRefsOK pa b0 = true
      · unfold axRefsOK at hok
        rw [Bool.and_eq_true] at hok
        obtain ⟨ha, hb⟩ := hok
        rw [List.all_eq_true] at ha
        rw [List.all_eq_true] at hb
        constructor
        · intro e he v hv
          have he2 : e = (k, b0) := by simpa using List.mem_singleton.mp (hco ▸ he)
          subst he2
          have hmem : v ∈ axisIDs pa := by simpa using ha v hv
          obtain ⟨b, hbmem, hbid⟩ := List.mem_filterMap.mp hmem
          exact ⟨b, hbmem, hbid⟩
        · intro a hamem v hv
          have hpt := hb a hamem
          rw [hv] at hpt
          rw [Bool.and_eq_true] at hpt
          obtain ⟨h1, h2⟩ := hpt
          have hmem : v ∈ axisIDs pa := by simpa using h1
          obtain ⟨b, hbmem, hbid⟩ := List.mem_filterMap.mp hmem
          have hne : attrIVal a.AxID ≠ some v := by
            intro hcon
            rw [hcon] at h2
            simp at h2
          refine ⟨b, hbmem, ?_, hbid⟩
          intro hba
          rw [hba] at hbid
          exact hne hbid
      · rw [if_neg hok] at h
        exact absurd h (by simp)

/-- Witness for C7: in the concrete accepted tree `wTree`, the first
listed axis ID resolves to an axis element. -/
theorem c7_axis_closure_witness :
    ∃ b ∈ axElems wPA, attrIVal b.AxID = some 1 :=
  (c7_axis_closure wTree wDecoded wPA (by decide) (by decide)).1
    wContainer (by decide) 1 (by decide)

/-- Claim C8: A series whose value formula resolves to zero cells does not
fail the encode: when the kind is recognized and every series resolves,
encode succeeds, and the series whose range is empty is cached with an
empty point list and `PtCount = 0`. -/
theorem c8_empty_range (resolve : RangeResolver) (c : Chart) (k : ChartKind)
    (j : Nat) (s : ChartSeries)
    (hk : chartKindOf c.chartType = some k)
    (hall : allResolvable resolve k c.Series = true)
    (hs : c.Series.get? j = some s)
    (hempty : resolve s.Values = some []) :
    ∃ t, encode resolve c = .ok t ∧
      ∃ ser, (treeSers t).get? j = some ser ∧
        valCacheOf k ser =
          some { FormatCode := "General", Pt := [], PtCount := some (avI 0) } := by
  have hall2 : ∀ x ∈ c.Series, serResolvable resolve k x = true := by
    simpa [allResolvable, List.all_eq_true] using hall
  have hlim : ¬ axisLimit < axisTopology k := by
    have := axisTopology_le k; omega
  have henc : encode resolve c =
      .ok (buildTree k c (encodeSeriesPure resolve k c.Series 0)) := by
    unfold encode
    rw [hk]
    simp only [hlim, if_false]
    rw [encodeSeries_ok_of_all resolve k c.Series 0 hall2]
  refine ⟨_, henc, encodeSerPure resolve k j s, ?_, ?_⟩
  · rw [treeSers_buildTree, encodeSeriesPure_get]
    simp
    exact ⟨s, by simpa using hs, rfl⟩
  · unfold valCacheOf encodeSerPure buildSer mkValRef
    by_cases hxy : usesXYVal k = true <;> simp [hxy, hempty, buildNumCache]

/-- Witness for C8 at the concrete line chart `c8chart`. -/
theorem c8_empty_range_witness :
    ∃ t, encode c8resolve c8chart = .ok t ∧
      ∃ ser, (treeSers t).get? 0 = some ser ∧
        valCacheOf ChartKind.line ser =
          some { FormatCode := "General", Pt := [], PtCount := some (avI 0) } :=
  c8_empty_range c8resolve c8chart ChartKind.line 0 { Values := "Sheet1!e" }
    (by decide) (by decide) (by decide) (by decide)

/-! ## C9: axis IDs are internal only -/

theorem decode_ok_inv (t : xlsxChartSpace) (c : Chart) (h : decode t = .ok c) :
    ∃ pa k b, t.Chart.PlotArea = some pa ∧ containersOf pa = [(k, b)] ∧
      axRefsOK pa b = true ∧ c = decodeChart t pa k b := by
  unfold decode at h
  cases hpa : t.Chart.PlotArea with
  | none => rw [hpa] at h; exact absurd h (by simp)
  | some pa =>
    rw [hpa] at h
    replace h : decodeArea t pa = .ok c := h
    unfold decodeArea at h
    cases hco : containersOf pa with
    | nil => rw [hco] at h; exact absurd h (by simp)
    | cons x rest =>
      cases rest with
      | cons y ys => rw [hco] at h; exact absurd h (by simp)
      | nil =>
        obtain ⟨k, b⟩ := x
        rw [hco] at h
        replace h : (if axRefsOK pa b = true then Except.ok (decodeChart t pa k b)
            else Except.error DecodeError.MalformedChartTree) = Except.ok c := h
        by_cases hok : axRefsOK pa b = true
        · rw [if_pos hok] at h
          simp only [Except.ok.injEq] at h
          exact ⟨pa, k, b, rfl, hco, hok, h.symm⟩
        · rw [if_neg hok] at h
          exact absurd h (by simp)

theorem attrIVal_renameAv (ren : Int → Int) (o : Option attrValInt) :
    attrIVal (renameAv ren o) = (attrIVal o).map ren := by
  cases o <;> rfl

theorem renameAx_AxID (ren : Int → Int) (a : cAxs) :
    attrIVal (renameAx ren a).AxID = (attrIVal a.AxID).map ren :=
  attrIVal_renameAv ren a.AxID

theorem renameAx_CrossAx (ren : Int → Int) (a : cAxs) :
    attrIVal (renameAx ren a).CrossAx = (attrIVal a.CrossAx).map ren :=
  attrIVal_renameAv ren a.CrossAx

theorem decodeAxis_renameAx (ren : Int → Int) (a : cAxs) :
    decodeAxis (renameAx ren a) = decodeAxis a := rfl

theorem containersOf_renamePA (ren : Int → Int) (pa : cPlotArea) :
    containersOf (renamePA ren pa) =
      (containersOf pa).map (fun e => (e.1, renameBlock ren e.2)) := by
  have he : containerEntries (renamePA ren pa) =
      (containerEntries pa).map (fun e => (e.1, e.2.map (renameBlock ren))) := rfl
  rw [containersOf, containersOf, he, List.filterMap_map, List.map_filterMap]
  congr 1
  funext e
  cases h2 : e.2 <;> simp [h2, Function.comp]

theorem axElems_renamePA (ren : Int → Int) (pa : cPlotArea) :
    axElems (renamePA ren pa) = (axElems pa).map (renameAx ren) := by
  unfold axElems
  rw [show (renamePA ren pa).CatAx = pa.CatAx.map (Option.map (renameAx ren)) from rfl,
      show (renamePA ren pa).ValAx = pa.ValAx.map (Option.map (renameAx ren)) from rfl,
      show (renamePA ren pa).SerAx = pa.SerAx.map (Option.map (renameAx ren)) from rfl,
      ← List.map_append, ← List.map_append, List.reduceOption_map]

theorem axisIDs_renamePA (ren : Int → Int) (pa : cPlotArea) :
    axisIDs (renamePA ren pa) = (axisIDs pa).map ren := by
  unfold axisIDs
  rw [axElems_renamePA, List.filterMap_map,
      show ((fun a => attrIVal a.AxID) ∘ renameAx ren) =
        (fun a => (attrIVal a.AxID).map ren) from funext (fun a => renameAx_AxID ren a),
      ← List.map_filterMap]

theorem blockAxIDs_renameBlock (ren : Int → Int) (b : cCharts) :
    blockAxIDs (renameBlock ren b) = (blockAxIDs b).map ren := by
  unfold blockAxIDs
  rw [show (renameBlock ren b).AxID = b.AxID.map (renameAv ren) from rfl,
      List.filterMap_map,
      show (attrIVal ∘ renameAv ren) = (fun o => (attrIVal o).map ren) from
        funext (fun o => attrIVal_renameAv ren o),
      ← List.map_filterMap]

theorem contains_map_inj (ren : Int → Int) (hinj : Function.Injective ren)
    (l : List Int) (v : Int) : (l.map ren).contains (ren v) = l.contains v := by
  induction l with
  | nil => rfl
  | cons x xs ih =>
    simp only [List.map_cons, List.contains_cons, ih]
    congr 1
    by_cases hvx : v = x
    · simp [hvx]
    · have hne : ren v ≠ ren x := fun hc => hvx (hinj hc)
      simp [hvx, hne]

theorem all_congr_aux {α : Type} (p q : α → Bool) :
    ∀ l : List α, (∀ x ∈ l, p x = q x) → l.all p = l.all q := by
  intro l
  induction l with
  | nil => intro _; rfl
  | cons x xs ih =>
    intro h
    simp only [List.all_cons, h x (by simp), ih (fun y hy => h y (by simp [hy]))]

theorem axRefsOK_rename (ren : Int → Int) (hinj : Function.Injective ren)
    (pa : cPlotArea) (b : cCharts) :
    axRefsOK (renamePA ren pa) (renameBlock ren b) = axRefsOK pa b := by
  unfold axRefsOK
  rw [blockAxIDs_renameBlock, axisIDs_renamePA, axElems_renamePA]
  congr 1
  · rw [List.all_map]
    apply all_congr_aux
    intro v _
    exact contains_map_inj ren hinj (axisIDs pa) v
  · rw [List.all_map]
    apply all_congr_aux
    intro a _
    simp only [Function.comp_apply]
    rw [show attrIVal (renameAx ren a).CrossAx = (attrIVal a.CrossAx).map ren from
        renameAx_CrossAx ren a]
    cases hcv : attrIVal a.CrossAx with
    | none => rfl
    | some v =>
      show (((axisIDs pa).map ren).contains (ren v)
          && !(attrIVal (renameAx ren a).AxID == some (ren v)))
        = ((axisIDs pa).contains v && !(attrIVal a.AxID == some v))
      rw [contains_map_inj ren hinj, renameAx_AxID]
      congr 1
      cases hav : attrIVal a.AxID with
      | none => rfl
      | some w =>
        show (!(some (ren w) == some (ren v))) = (!(some w == some v))
        by_cases hwv : w = v
        · simp [hwv]
        · have hne : ren w ≠ ren v := fun hc => hwv (hinj hc)
          simp [hwv, hne]

theorem findAxis_rename (ren : Int → Int) (hinj : Function.Injective ren)
    (axes : List (Option cAxs)) (ids : List Int) :
    findAxis (axes.map (Option.map (renameAx ren))) (ids.map ren) =
      (findAxis axes ids).map (renameAx ren) := by
  unfold findAxis
  rw [List.reduceOption_map, List.find?_map]
  have hp : ((fun a => match attrIVal a.AxID with
      | some v => (ids.map ren).contains v
      | none => false) ∘ renameAx ren)
      = (fun a => match attrIVal a.AxID with
      | some v => ids.contains v
      | none => false) := by
    funext a
    simp only [Function.comp_apply]
    rw [show attrIVal (renameAx ren a).AxID = (attrIVal a.AxID).map ren from
        renameAx_AxID ren a]
    cases hav : attrIVal a.AxID with
    | none => rfl
    | some v =>
      show (ids.map ren).contains (ren v) = ids.contains v
      exact contains_map_inj ren hinj ids v
  rw [hp]

theorem renameBlock_Ser (ren : Int → Int) (b : cCharts) :
    (renameBlock ren b).Ser = b.Ser := rfl

theorem renameBlock_DLbls (ren : Int → Int) (b : cCharts) :
    (renameBlock ren b).DLbls = b.DLbls := rfl

theorem renameBlock_VaryColors (ren : Int → Int) (b : cCharts) :
    (renameBlock ren b).VaryColors = b.VaryColors := rfl

theorem renameBlock_SplitPos (ren : Int → Int) (b : cCharts) :
    (renameBlock ren b).SplitPos = b.SplitPos := rfl

theorem renameBlock_HoleSize (ren : Int → Int) (b : cCharts) :
    (renameBlock ren b).HoleSize = b.HoleSize := rfl

theorem renameBlock_BubbleScale (ren : Int → Int) (b : cCharts) :
    (renameBlock ren b).BubbleScale = b.BubbleScale := rfl

theorem renameTree_Legend (ren : Int → Int) (t : xlsxChartSpace) :
    (renameTree ren t).Chart.Legend = t.Chart.Legend := rfl

theorem renameTree_Title (ren : Int → Int) (t : xlsxChartSpace) :
    (renameTree ren t).Chart.Title = t.Chart.Title := rfl

theorem renameTree_DispBlanksAs (ren : Int → Int) (t : xlsxChartSpace) :
    (renameTree ren t).Chart.DispBlanksAs = t.Chart.DispBlanksAs := rfl

theorem decodeChart_rename (ren : Int → Int) (hinj : Function.Injective ren)
    (t : xlsxChartSpace) (pa : cPlotArea) (k : ChartKind) (b : cCharts) :
    decodeChart (renameTree ren t) (renamePA ren pa) k (renameBlock ren b) =
      decodeChart t pa k b := by
  have hcomp : (decodeAxis ∘ renameAx ren) = decodeAxis :=
    funext (fun a => decodeAxis_renameAx ren a)
  have hx : findAxis (renamePA ren pa).CatAx (blockAxIDs (renameBlock ren b)) =
      (findAxis pa.CatAx (blockAxIDs b)).map (renameAx ren) := by
    rw [show (renamePA ren pa).CatAx = pa.CatAx.map (Option.map (renameAx ren)) from rfl,
        blockAxIDs_renameBlock, findAxis_rename ren hinj]
  have hy : findAxis (renamePA ren pa).ValAx (blockAxIDs (renameBlock ren b)) =
      (findAxis pa.ValAx (blockAxIDs b)).map (renameAx ren) := by
    rw [show (renamePA ren pa).ValAx = pa.ValAx.map (Option.map (renameAx ren)) from rfl,
        blockAxIDs_renameBlock, findAxis_rename ren hinj]
  simp only [decodeChart, renameBlock_Ser, renameBlock_DLbls, renameBlock_VaryColors,
    renameBlock_SplitPos, renameBlock_HoleSize, renameBlock_BubbleScale,
    renameTree_Legend, renameTree_Title, renameTree_DispBlanksAs, hx, hy,
    Option.map_map, hcomp]

theorem decode_renameTree (ren : Int → Int) (hinj : Function.Injective ren)
    (t : xlsxChartSpace) : decode (renameTree ren t) = decode t := by
  unfold decode
  cases hpa : t.Chart.PlotArea with
  | none =>
    rw [show (renameTree ren t).Chart.PlotArea = t.Chart.PlotArea.map (renamePA ren)
        from rfl, hpa]
    rfl
  | some pa =>
    rw [show (renameTree ren t).Chart.PlotArea = t.Chart.PlotArea.map (renamePA ren)
        from rfl, hpa]
    show decodeArea (renameTree ren t) (renamePA ren pa) = decodeArea t pa
    unfold decodeArea
    rw [containersOf_renamePA]
    cases hco : containersOf pa with
    | nil => rfl
    | cons x rest =>
      cases rest with
      | cons y ys => rfl
      | nil =>
        obtain ⟨k, b⟩ := x
        show (if axRefsOK (renamePA ren pa) (renameBlock ren b) = true
            then Except.ok (decodeChart (renameTree ren t) (renamePA ren pa) k
              (renameBlock ren b))
            else Except.error DecodeError.MalformedChartTree) =
          (if axRefsOK pa b = true then Except.ok (decodeChart t pa k b)
            else Except.error DecodeError.MalformedChartTree)
        rw [axRefsOK_rename ren hinj, decodeChart_rename ren hinj]

theorem axID_decoded (o : Option cAxs) : ((o.map decodeAxis).getD {}).axID = 0 := by
  cases o <;> rfl

/-- Claim C9: Axis IDs are internal bookkeeping only: the carried view of a
public axis is independent of its unexported `axID` field, any decoded
chart carries `axID = 0` in both public axes (IDs are discarded, not
preserved), and decoding is invariant under any consistent (injective)
renaming of the `axId`/`crossAx` values of the tree. -/
theorem c9_axis_ids_internal :
    (∀ (ax : ChartAxis) (i : Int), axisView { ax with axID := i } = axisView ax) ∧
    (∀ (t : xlsxChartSpace) (c : Chart), decode t = .ok c →
       c.XAxis.axID = 0 ∧ c.YAxis.axID = 0) ∧
    (∀ ren : Int → Int, Function.Injective ren →
       ∀ t, decode (renameTree ren t) = decode t) := by
  refine ⟨fun ax i => rfl, ?_, fun ren hinj t => decode_renameTree ren hinj t⟩
  intro t c h
  obtain ⟨pa, k, b, -, -, -, hc⟩ := decode_ok_inv t c h
  subst hc
  exact ⟨axID_decoded (findAxis pa.CatAx (blockAxIDs b)),
         axID_decoded (findAxis pa.ValAx (blockAxIDs b))⟩

/-- Witness for C9: decoding the concrete tree `wTree` is unchanged by
shifting every axis ID by one. -/
theorem c9_axis_ids_internal_witness :
    decode (renameTree (fun i => i + 1) wTree) = decode wTree :=
  c9_axis_ids_internal.2.2 (fun i => i + 1) (fun a b hab => by simpa using hab) wTree
